import Mathlib

/-!
# Verification of the keyboy chord-analysis engine

A shallow embedding of the chord-recognition core (the `chordAnalysis`
library and the identical inline copy in the monolithic app file) together
with proofs about it.  MIDI notes are modelled as `Nat` (the engine's
domain is 0–127), raw semitone distances ("actual intervals") as `Int`
(they can be negative for bass notes voiced below the inferred root),
scores as `Int`, and pattern / note names as `String`.

JavaScript-specific behaviours are modelled explicitly:
* `Array.prototype.sort` with a numeric comparator is a stable sort; it is
  modelled with `List.insertionSort`, which is stable in the same sense.
* `String.prototype.replace(pat, rep)` replaces only the first occurrence;
  it is modelled by `jsReplace`.
* `String.prototype.includes` is modelled by `strIncludes`.
* `Array.from(new Set(xs)).sort((a,b) => a-b)` produces the ascending list
  of distinct elements; it is modelled by deduplication followed by
  `List.insertionSort` (distinctness makes the pre-sort order irrelevant).
-/

/-- Contiguous-infix test on character lists. -/
def listIsInfixOf (pat : List Char) : List Char → Bool
  | [] => pat.isEmpty
  | c :: cs => List.isPrefixOf pat (c :: cs) || listIsInfixOf pat cs

/-- JS `s.includes(sub)`: substring test. -/
def strIncludes (s sub : String) : Bool :=
  listIsInfixOf sub.toList s.toList

/-- Replace the first occurrence of `pat` by `rep` in a character list
(the JS `String.prototype.replace` behaviour with string arguments). -/
def replaceFirstList (pat rep : List Char) : List Char → List Char
  | [] => []
  | c :: cs =>
    if List.isPrefixOf pat (c :: cs) then rep ++ (c :: cs).drop pat.length
    else c :: replaceFirstList pat rep cs

/-- JS `s.replace(pat, rep)` (first occurrence only). -/
def jsReplace (s pat rep : String) : String :=
  String.mk (replaceFirstList pat.toList rep.toList s.toList)

/-- JS `Math.min(...xs)` on a non-empty list of naturals (0 as junk value
for the empty list, which never occurs at the call sites). -/
def listMinNat : List Nat → Nat
  | [] => 0
  | x :: xs => xs.foldl Nat.min x

/-- JS `Math.min(...xs)` on a non-empty list of integers. -/
def listMinInt : List Int → Int
  | [] => 0
  | x :: xs => xs.foldl min x

/-- `ChordPattern` from `types.ts`: a named interval-set template.  The
optional `allowOmit5th?: boolean` is modelled with default `false`. -/
structure ChordPattern where
  name : String
  intervals : List Nat
  priority : Nat
  allowOmit5th : Bool := false
deriving Repr, DecidableEq

/-- The ephemeral `Match` record produced inside `analyzeChord`. -/
structure Match where
  pattern : ChordPattern
  root : Nat
  score : Int
  isRootless : Bool
  isExact : Bool
deriving Repr, DecidableEq

/-- `ActualIntervalInfo`: per input note, its pitch class, its raw signed
semitone distance from the inferred root MIDI value, and its MIDI value. -/
structure ActualIntervalInfo where
  pitchClass : Nat
  actualInterval : Int
  midi : Nat
deriving Repr, DecidableEq

/-- `TensionDisambiguation`: the result of the voicing-based analysis. -/
structure TensionDisambiguation where
  interval3IsSharp9 : Bool
  interval6IsSharp11 : Bool
  interval8IsSharp5 : Bool
deriving Repr, DecidableEq

/-- The `ChordAnalysis` output record.  The fields `isRootless` and
`actualIntervals` are absent (undefined) on the no-match fallback path in
the source; they are modelled there by `false` / `[]`. -/
structure ChordAnalysis where
  root : String
  quality : String
  bass : String
  display : String
  intervals : List Nat
  detectedRootPitchClass : Nat
  isRootless : Bool := false
  actualIntervals : List Int := []
deriving Repr, DecidableEq

/-- The `scale` component of the hand-authored `ROOT_SPELLING` table:
for each root pitch class, the spelling of every semitone degree. -/
def ROOT_SPELLING_scale (r : Nat) : List String :=
  match r with
  | 0  => ["C", "Db", "D", "Eb", "E", "F", "F#", "G", "Ab", "A", "Bb", "B"]
  | 1  => ["C#", "D", "D#", "E", "E#", "F#", "G", "G#", "A", "A#", "B", "B#"]
  | 2  => ["D", "Eb", "E", "F", "F#", "G", "Ab", "A", "Bb", "B", "C", "C#"]
  | 3  => ["Eb", "Fb", "F", "Gb", "G", "Ab", "A", "Bb", "Cb", "C", "Db", "D"]
  | 4  => ["E", "F", "F#", "G", "G#", "A", "Bb", "B", "C", "C#", "D", "D#"]
  | 5  => ["F", "Gb", "G", "Ab", "A", "Bb", "B", "C", "Db", "D", "Eb", "E"]
  | 6  => ["F#", "G", "G#", "A", "A#", "B", "C", "C#", "D", "D#", "E", "E#"]
  | 7  => ["G", "Ab", "A", "Bb", "B", "C", "Db", "D", "Eb", "E", "F", "F#"]
  | 8  => ["Ab", "A", "Bb", "Cb", "C", "Db", "D", "Eb", "Fb", "F", "Gb", "G"]
  | 9  => ["A", "Bb", "B", "C", "C#", "D", "Eb", "E", "F", "F#", "G", "G#"]
  | 10 => ["Bb", "Cb", "C", "Db", "D", "Eb", "Fb", "F", "Gb", "G", "Ab", "A"]
  | 11 => ["B", "C", "C#", "D", "D#", "E"] ++ ["F", "F#", "G", "G#", "A", "A#"]
  | _  => []

/-- `getRootSpelling(rootPitchClass, bassContext?)`: context-sensitive
enharmonic spelling of a root.  The optional JS argument is an `Option`. -/
def getRootSpelling (rootPitchClass : Nat) (bassContext : Option (List Nat)) : String :=
  let hasSharpIndicators :=
    match bassContext with
    | none => false
    | some c => c.contains 6 || c.contains 1 || c.contains 8 || c.contains 4 || c.contains 11
  let hasFlatIndicators :=
    match bassContext with
    | none => false
    | some c => c.contains 10 || c.contains 3 || c.contains 5
  if rootPitchClass == 1 then
    if hasFlatIndicators && !hasSharpIndicators then "Db" else "C#"
  else if rootPitchClass == 3 then
    if hasSharpIndicators && !hasFlatIndicators &&
        (match bassContext with
         | none => false
         | some c => c.contains 4 || c.contains 11 || c.contains 6) then
      "D#"
    else "Eb"
  else if rootPitchClass == 6 then
    if hasFlatIndicators &&
        (match bassContext with
         | none => false
         | some c => (c.contains 1 || c.contains 8) && !(c.contains 4) && !(c.contains 11)) then
      "Gb"
    else "F#"
  else if rootPitchClass == 8 then
    if hasSharpIndicators && !hasFlatIndicators &&
        (match bassContext with
         | none => false
         | some c => c.contains 4 || c.contains 9 || c.contains 11) then
      "G#"
    else "Ab"
  else if rootPitchClass == 10 then
    if hasSharpIndicators && !hasFlatIndicators &&
        (match bassContext with
         | none => false
         | some c => c.contains 11 || c.contains 6) then
      "A#"
    else "Bb"
  else (ROOT_SPELLING_scale rootPitchClass).getD 0 ""

/-- `getChordToneSpelling(pitchClass, rootPitchClass)`: scale-table lookup
at `((pitchClass - rootPitchClass) % 12 + 12) % 12` (both arguments are
pitch classes 0–11 at every call site, so `pc + 12 - root` is exact). -/
def getChordToneSpelling (pitchClass rootPitchClass : Nat) : String :=
  (ROOT_SPELLING_scale rootPitchClass).getD ((pitchClass + 12 - rootPitchClass) % 12) ""

/-- `normalizeIntervals`: mod 12, deduplicated, sorted ascending. -/
def normalizeIntervals (intervals : List Nat) : List Nat :=
  List.insertionSort (· ≤ ·) (intervals.map (fun i => i % 12)).dedup

/-- `Array.from(new Set(sorted.map(n => n % 12))).sort((a,b) => a-b)`:
the ascending list of distinct pitch classes of the input notes. -/
def uniquePitchClasses (sorted : List Nat) : List Nat :=
  List.insertionSort (· ≤ ·) (sorted.map (fun n => n % 12)).dedup

/-- The root-relative interval list of the played pitch classes, sorted
ascending: `uniquePitchClasses.map(n => (n - root + 12) % 12).sort()`. -/
def intervalsFromRoot (upcs : List Nat) (root : Nat) : List Nat :=
  List.insertionSort (· ≤ ·) (upcs.map (fun n => (n + 12 - root) % 12))

/-- `COMMON_EXTENSIONS = new Set([2, 5, 9])`. -/
def COMMON_EXTENSIONS : List Nat := [2, 5, 9]

/-- `calculateExtraNotesPenalty`: 3 points per common-extension extra when
the pattern has a 7th, 6 without one, 18 for any other extra tone. -/
def calculateExtraNotesPenalty (extraIntervals patternIntervals : List Nat) : Nat :=
  let patternHas7th := patternIntervals.any (fun i => i == 10 || i == 11)
  extraIntervals.foldl
    (fun penalty interval =>
      penalty + (if COMMON_EXTENSIONS.contains interval then (if patternHas7th then 3 else 6) else 18))
    0

/-- The static `CHORD_PATTERNS` catalog from the chord-analysis library. -/
def CHORD_PATTERNS : List ChordPattern := [
  { name := "Maj13", intervals := normalizeIntervals [0, 4, 7, 11, 14, 21], priority := 65, allowOmit5th := true },
  { name := "13", intervals := normalizeIntervals [0, 4, 7, 10, 14, 21], priority := 65, allowOmit5th := true },
  { name := "min13", intervals := normalizeIntervals [0, 3, 7, 10, 14, 21], priority := 65, allowOmit5th := true },
  { name := "13sus4", intervals := normalizeIntervals [0, 5, 7, 10, 14, 21], priority := 64, allowOmit5th := true },
  { name := "Maj9#11", intervals := normalizeIntervals [0, 4, 7, 11, 14, 18], priority := 62, allowOmit5th := true },
  { name := "9#11", intervals := normalizeIntervals [0, 4, 7, 10, 14, 18], priority := 62, allowOmit5th := true },
  { name := "Maj11", intervals := normalizeIntervals [0, 4, 7, 11, 14, 17], priority := 60, allowOmit5th := true },
  { name := "11", intervals := normalizeIntervals [0, 4, 7, 10, 14, 17], priority := 60, allowOmit5th := true },
  { name := "min11", intervals := normalizeIntervals [0, 3, 7, 10, 14, 17], priority := 60, allowOmit5th := true },
  { name := "Maj9", intervals := normalizeIntervals [0, 4, 7, 11, 14], priority := 55, allowOmit5th := true },
  { name := "9", intervals := normalizeIntervals [0, 4, 7, 10, 14], priority := 55, allowOmit5th := true },
  { name := "min9", intervals := normalizeIntervals [0, 3, 7, 10, 14], priority := 55, allowOmit5th := true },
  { name := "minMaj9", intervals := normalizeIntervals [0, 3, 7, 11, 14], priority := 55, allowOmit5th := true },
  { name := "9sus4", intervals := normalizeIntervals [0, 5, 7, 10, 14], priority := 54, allowOmit5th := true },
  { name := "13b9", intervals := normalizeIntervals [0, 4, 7, 10, 13, 21], priority := 66, allowOmit5th := true },
  { name := "13#9", intervals := normalizeIntervals [0, 4, 7, 10, 15, 21], priority := 66, allowOmit5th := true },
  { name := "7b9#11", intervals := normalizeIntervals [0, 4, 7, 10, 13, 18], priority := 58, allowOmit5th := true },
  { name := "7#9#11", intervals := normalizeIntervals [0, 4, 7, 10, 15, 18], priority := 58, allowOmit5th := true },
  { name := "7b9b13", intervals := normalizeIntervals [0, 4, 7, 10, 13, 20], priority := 58 },
  { name := "7#9b13", intervals := normalizeIntervals [0, 4, 7, 10, 15, 20], priority := 58 },
  { name := "7alt", intervals := normalizeIntervals [0, 4, 6, 10, 13, 15], priority := 59 },
  { name := "Maj7#9", intervals := normalizeIntervals [0, 4, 7, 11, 15], priority := 56, allowOmit5th := true },
  { name := "7#9", intervals := normalizeIntervals [0, 4, 7, 10, 15], priority := 54, allowOmit5th := true },
  { name := "7b9", intervals := normalizeIntervals [0, 4, 7, 10, 13], priority := 54, allowOmit5th := true },
  { name := "7#5#9", intervals := normalizeIntervals [0, 4, 8, 10, 15], priority := 56 },
  { name := "7#5b9", intervals := normalizeIntervals [0, 4, 8, 10, 13], priority := 56 },
  { name := "7b5b9", intervals := normalizeIntervals [0, 4, 6, 10, 13], priority := 56 },
  { name := "7b5#9", intervals := normalizeIntervals [0, 4, 6, 10, 15], priority := 56 },
  { name := "7b13", intervals := normalizeIntervals [0, 4, 7, 10, 20], priority := 53 },
  { name := "m9b5", intervals := normalizeIntervals [0, 3, 6, 10, 14], priority := 56 },
  { name := "m11b5", intervals := normalizeIntervals [0, 3, 6, 10, 14, 17], priority := 58 },
  { name := "m7b5(11)", intervals := normalizeIntervals [0, 3, 6, 10, 17], priority := 54 },
  { name := "Maj7#11", intervals := normalizeIntervals [0, 4, 7, 11, 18], priority := 52, allowOmit5th := true },
  { name := "7#11", intervals := normalizeIntervals [0, 4, 7, 10, 18], priority := 52, allowOmit5th := true },
  { name := "6/9", intervals := normalizeIntervals [0, 4, 7, 9, 14], priority := 52, allowOmit5th := true },
  { name := "min6/9", intervals := normalizeIntervals [0, 3, 7, 9, 14], priority := 52, allowOmit5th := true },
  { name := "7sus4", intervals := [0, 5, 7, 10], priority := 46 },
  { name := "7sus2", intervals := [0, 2, 7, 10], priority := 46 },
  { name := "Maj7sus4", intervals := [0, 5, 7, 11], priority := 46 },
  { name := "Maj7sus2", intervals := [0, 2, 7, 11], priority := 46 },
  { name := "Maj7", intervals := [0, 4, 7, 11], priority := 45, allowOmit5th := true },
  { name := "min7", intervals := [0, 3, 7, 10], priority := 45, allowOmit5th := true },
  { name := "7", intervals := [0, 4, 7, 10], priority := 45, allowOmit5th := true },
  { name := "dim7", intervals := [0, 3, 6, 9], priority := 45 },
  { name := "m7b5", intervals := [0, 3, 6, 10], priority := 45 },
  { name := "minMaj7", intervals := [0, 3, 7, 11], priority := 45, allowOmit5th := true },
  { name := "Maj7#5", intervals := [0, 4, 8, 11], priority := 46 },
  { name := "7#5", intervals := [0, 4, 8, 10], priority := 46 },
  { name := "7b5", intervals := [0, 4, 6, 10], priority := 46 },
  { name := "6", intervals := [0, 4, 7, 9], priority := 42, allowOmit5th := true },
  { name := "min6", intervals := [0, 3, 7, 9], priority := 42, allowOmit5th := true },
  { name := "add9", intervals := normalizeIntervals [0, 4, 7, 14], priority := 40, allowOmit5th := true },
  { name := "madd9", intervals := normalizeIntervals [0, 3, 7, 14], priority := 40, allowOmit5th := true },
  { name := "add11", intervals := normalizeIntervals [0, 4, 7, 17], priority := 40, allowOmit5th := true },
  { name := "madd11", intervals := normalizeIntervals [0, 3, 7, 17], priority := 40, allowOmit5th := true },
  { name := "add#11", intervals := normalizeIntervals [0, 4, 7, 18], priority := 40 },
  { name := "add#9", intervals := normalizeIntervals [0, 4, 7, 15], priority := 41, allowOmit5th := true },
  { name := "madd#9", intervals := normalizeIntervals [0, 3, 7, 15], priority := 41, allowOmit5th := true },
  { name := "(add b3)", intervals := [0, 3, 4, 7], priority := 40 },
  { name := "m(add 3)", intervals := [0, 3, 4, 7], priority := 39 },
  { name := "", intervals := [0, 4, 7], priority := 35 },
  { name := "m", intervals := [0, 3, 7], priority := 35 },
  { name := "dim", intervals := [0, 3, 6], priority := 35 },
  { name := "aug", intervals := [0, 4, 8], priority := 35 },
  { name := "sus2", intervals := [0, 2, 7], priority := 33 },
  { name := "sus4", intervals := [0, 5, 7], priority := 33 },
  { name := "(#11)", intervals := [0, 4, 6], priority := 34 },
  { name := "(b5)", intervals := [0, 4, 6], priority := 33 },
  { name := "quartal", intervals := normalizeIntervals [0, 5, 10], priority := 22 },
  { name := "quartal4", intervals := normalizeIntervals [0, 5, 10, 15], priority := 23 },
  { name := "5", intervals := [0, 7], priority := 20 }
]

/-- `calculateActualIntervals`: raw octave-preserving semitone distances of
every input note from the inferred root MIDI value. -/
def calculateActualIntervals (sortedMidiNotes : List Nat) (rootPitchClass : Nat) :
    List ActualIntervalInfo :=
  if sortedMidiNotes.length == 0 then []
  else
    let rootInstances := sortedMidiNotes.filter (fun n => n % 12 == rootPitchClass)
    let rootMidi : Int :=
      if rootInstances.length > 0 then (listMinNat rootInstances : Int)
      else
        let lowestNote := sortedMidiNotes.headD 0
        let lowestPitchClass := lowestNote % 12
        let intervalFromRoot := (lowestPitchClass + 12 - rootPitchClass) % 12
        (lowestNote : Int) - (intervalFromRoot : Int)
    sortedMidiNotes.map (fun midi => ⟨midi % 12, (midi : Int) - rootMidi, midi⟩)

/-- `getActualIntervalForPitchClass`: the compound instance if one exists,
else the lowest actual interval of the target pitch class, else the
expected mod-12 interval. -/
def getActualIntervalForPitchClass (actualIntervals : List ActualIntervalInfo)
    (targetPitchClass rootPitchClass : Nat) : Int :=
  let expectedMod12 : Int := ((targetPitchClass + 12 - rootPitchClass) % 12 : Nat)
  let ms := actualIntervals.filter (fun info => info.pitchClass == targetPitchClass)
  if ms.length == 0 then expectedMod12
  else
    match ms.find? (fun m => decide (12 < m.actualInterval)) with
    | some compound => compound.actualInterval
    | none => listMinInt (ms.map (fun m => m.actualInterval))

/-- `disambiguateTensions`: octave-aware resolution of the three ambiguous
interval classes (3 = b3/#9, 6 = b5/#11, 8 = #5/b13). -/
def disambiguateTensions (actualIntervals : List ActualIntervalInfo) (rootPitchClass : Nat)
    (hasMaj3 hasMin3 has7th hasPerfect5 : Bool) : TensionDisambiguation :=
  let pitchClass3 := (rootPitchClass + 3) % 12
  let interval3Actual := getActualIntervalForPitchClass actualIntervals pitchClass3 rootPitchClass
  let interval3IsSharp9 :=
    if 14 ≤ interval3Actual then true
    else if hasMaj3 then
      let maj3PitchClass := (rootPitchClass + 4) % 12
      let maj3Instances := actualIntervals.filter (fun i => i.pitchClass == maj3PitchClass)
      let pc3Instances := actualIntervals.filter (fun i => i.pitchClass == pitchClass3)
      if maj3Instances.length > 0 && pc3Instances.length > 0 then
        decide (listMinNat (maj3Instances.map (fun i => i.midi)) <
                listMinNat (pc3Instances.map (fun i => i.midi)))
      else if has7th && pc3Instances.length > 0 then true
      else false
    else false
  let pitchClass6 := (rootPitchClass + 6) % 12
  let interval6Actual := getActualIntervalForPitchClass actualIntervals pitchClass6 rootPitchClass
  let interval6IsSharp11 :=
    if 17 ≤ interval6Actual then true
    else if hasPerfect5 && hasMaj3 then true
    else if has7th && hasMaj3 && !hasPerfect5 then
      actualIntervals.any (fun i => (i.pitchClass + 12 - rootPitchClass) % 12 == 11)
    else false
  let pitchClass8 := (rootPitchClass + 8) % 12
  let interval8Actual := getActualIntervalForPitchClass actualIntervals pitchClass8 rootPitchClass
  let interval8IsSharp5 :=
    if 19 ≤ interval8Actual then false
    else if hasPerfect5 then false
    else if !hasPerfect5 && !has7th then true
    else false
  { interval3IsSharp9 := interval3IsSharp9,
    interval6IsSharp11 := interval6IsSharp11,
    interval8IsSharp5 := interval8IsSharp5 }

/-- One iteration of the rooted matching loop body of `analyzeChord` for a
given candidate root and pattern: exact match, else superset match, else
match with omitted 5th (the source `continue`s make these exclusive). -/
def rootedMatch (upcs : List Nat) (potentialRoot : Nat) (pattern : ChordPattern) : Option Match :=
  let intervals := intervalsFromRoot upcs potentialRoot
  if pattern.intervals.length == intervals.length &&
      pattern.intervals.all (fun i => intervals.contains i) then
    some ⟨pattern, potentialRoot, (pattern.priority : Int) * 100 + 1000, false, true⟩
  else if pattern.intervals.all (fun i => intervals.contains i) then
    let extraIntervals := intervals.filter (fun i => !(pattern.intervals.contains i))
    let penalty := calculateExtraNotesPenalty extraIntervals pattern.intervals
    some ⟨pattern, potentialRoot, (pattern.priority : Int) * 100 - (penalty : Int), false, false⟩
  else if pattern.allowOmit5th && pattern.intervals.contains 7 then
    let patternWithout5th := pattern.intervals.filter (fun i => i != 7)
    if patternWithout5th.all (fun i => intervals.contains i) && !(intervals.contains 7) then
      let extraIntervals := intervals.filter (fun i => !(pattern.intervals.contains i) && i != 7)
      let penalty := calculateExtraNotesPenalty extraIntervals pattern.intervals
      some ⟨pattern, potentialRoot, (pattern.priority : Int) * 100 - 15 - (penalty : Int), false, false⟩
    else none
  else none

/-- One iteration of the rootless matching loop body of `analyzeChord` for
a given absent root and pattern: the full-minus-root case and the
minus-root-minus-5th case are independent `if`s in the source, so both can
in principle contribute. -/
def rootlessMatchesFor (upcs : List Nat) (potentialRoot : Nat) (pattern : ChordPattern) :
    List Match :=
  let intervals := intervalsFromRoot upcs potentialRoot
  if pattern.intervals.length < 4 then []
  else if !(pattern.intervals.contains 0) then []
  else
    let patternWithoutRoot := pattern.intervals.filter (fun i => i != 0)
    let full : List Match :=
      if patternWithoutRoot.all (fun i => intervals.contains i) && patternWithoutRoot.length ≥ 3 then
        let extraIntervals := intervals.filter (fun i => !(patternWithoutRoot.contains i))
        let penalty := calculateExtraNotesPenalty extraIntervals pattern.intervals
        [⟨pattern, potentialRoot, (pattern.priority : Int) * 80 - 50 - (penalty : Int), true, false⟩]
      else []
    let omit5 : List Match :=
      if pattern.allowOmit5th then
        let patternWithoutRootAnd5th := patternWithoutRoot.filter (fun i => i != 7)
        if patternWithoutRootAnd5th.all (fun i => intervals.contains i) &&
            !(intervals.contains 7) && patternWithoutRootAnd5th.length ≥ 2 then
          let extraIntervals := intervals.filter (fun i => !(patternWithoutRootAnd5th.contains i))
          let penalty := calculateExtraNotesPenalty extraIntervals pattern.intervals
          [⟨pattern, potentialRoot, (pattern.priority : Int) * 70 - 80 - (penalty : Int), true, false⟩]
        else []
      else []
    full ++ omit5

/-- The full `matches` list of `analyzeChord`: the rooted loop over each
played pitch class, then the rootless loop over the absent pitch classes,
each over the whole pattern catalog in order. -/
def generateMatches (upcs : List Nat) : List Match :=
  (upcs.flatMap (fun r => CHORD_PATTERNS.filterMap (fun p => rootedMatch upcs r p))) ++
  (((List.range 12).filter (fun r => !(upcs.contains r))).flatMap
    (fun r => CHORD_PATTERNS.flatMap (fun p => rootlessMatchesFor upcs r p)))

/-- `matches.sort((a, b) => b.score - a.score)`: stable descending sort by
score (`List.insertionSort` is stable in the same sense as JS sort). -/
def sortMatches (ms : List Match) : List Match :=
  List.insertionSort (fun a b => Match.score b ≤ Match.score a) ms

/-- `{ ...best, pattern: { ...originalPattern, name: newName } }`: the
rename-in-place operation; every field except the pattern name is kept. -/
def withName (b : Match) (n : String) : Match :=
  { b with pattern := { b.pattern with name := n } }

/-- The `#9` vs `b3` post-match disambiguation block of `analyzeChord`
(entered only when both interval 3 and interval 4 are present). -/
def disamb9 (ms : List Match) (best : Match) (isSharp9 : Bool) : Match :=
  if isSharp9 then
    match ms.find? (fun m => strIncludes m.pattern.name "#9" && (m.root == best.root) &&
        decide (best.score - 150 < m.score)) with
    | some m =>
      if !(strIncludes best.pattern.name "#9") then m else best
    | none =>
      if !(strIncludes best.pattern.name "#9") && !(strIncludes best.pattern.name "m") then
        if best.pattern.name == "" || best.pattern.name.startsWith "add" ||
            best.pattern.name.startsWith "Maj" || best.pattern.name == "7" then
          withName best
            (if best.pattern.name == "" then "add#9"
             else if !(strIncludes best.pattern.name "#9") then best.pattern.name ++ "(#9)"
             else best.pattern.name)
        else best
      else best
  else
    if strIncludes best.pattern.name "#9" then
      if !(strIncludes best.pattern.name "7") then
        match ms.find? (fun m => (m.pattern.name == "(add b3)" || m.pattern.name == "m(add 3)") &&
            (m.root == best.root)) with
        | some c => c
        | none =>
          let n1 := jsReplace (jsReplace (jsReplace best.pattern.name "#9" "b3") "add" "(add ")
              "madd" "m(add "
          withName best (if strIncludes n1 "(add " && !(n1.endsWith ")") then n1 ++ ")" else n1)
      else
        withName best (jsReplace best.pattern.name "#9" "(add b3)")
    else best

/-- The `else if` chain of the sharp-11 case of the `#11` vs `b5` block:
run when the `#11` alternate switch did not fire.  (The `(b5)` fragment
branch is unreachable because `"(b5)"` contains `"b5"`, but it is kept,
faithful to the source.) -/
def disamb11sharpRest (ms : List Match) (best : Match) : Match :=
  if strIncludes best.pattern.name "b5" then
    withName best (jsReplace best.pattern.name "b5" "#11")
  else if best.pattern.name == "(b5)" then
    match ms.find? (fun m => m.pattern.name == "(#11)" && (m.root == best.root)) with
    | some f => f
    | none => best
  else best

/-- The `#11` vs `b5` post-match disambiguation block of `analyzeChord`
(entered only when interval 6 is present). -/
def disamb11 (ms : List Match) (best : Match) (isSharp11 hasNatural5 : Bool) : Match :=
  if isSharp11 then
    match ms.find? (fun m => strIncludes m.pattern.name "#11" && (m.root == best.root) &&
        decide (best.score - 150 < m.score)) with
    | some m =>
      if !(strIncludes best.pattern.name "#11") then m else disamb11sharpRest ms best
    | none => disamb11sharpRest ms best
  else
    if best.pattern.name == "(#11)" then
      match ms.find? (fun m => m.pattern.name == "(b5)" && (m.root == best.root)) with
      | some f => f
      | none => withName best "(b5)"
    else if strIncludes best.pattern.name "#11" && !hasNatural5 then
      match ms.find? (fun m => strIncludes m.pattern.name "b5" && (m.root == best.root) &&
          decide (best.score - 150 < m.score)) with
      | some m => m
      | none => withName best (jsReplace best.pattern.name "#11" "b5")
    else best

/-- The `#5` vs `b13` post-match disambiguation block of `analyzeChord`
(entered only when intervals 8 and 7 and a 7th are all present). -/
def disamb513 (ms : List Match) (best : Match) : Match :=
  if strIncludes best.pattern.name "#5" && !(strIncludes best.pattern.name "aug") then
    match ms.find? (fun m => strIncludes m.pattern.name "b13" && (m.root == best.root) &&
        decide (best.score - 150 < m.score)) with
    | some m => m
    | none => best
  else best

/-- The three sequential post-match disambiguation blocks of
`analyzeChord`, applied to the selected best match.  The third block does
not consult the tension-disambiguation result, only pattern names, exactly
as in the source. -/
def disambPipeline (ms : List Match) (best0 : Match)
    (hasMaj3 hasMin3 has7th hasTritone hasNatural5 hasPitchClass8 t3 t6 : Bool) : Match :=
  let best1 := if hasMin3 && hasMaj3 then disamb9 ms best0 t3 else best0
  let best2 := if hasTritone then disamb11 ms best1 t6 hasNatural5 else best1
  if hasPitchClass8 && hasNatural5 && has7th then disamb513 ms best2 else best2

/-- The `matches.length === 0` fallback of `analyzeChord`: a raw
description of the notes relative to the bass with empty quality. -/
def fallbackAnalysis (sorted : List Nat) (bassPitchClass : Nat) (upcs : List Nat) :
    ChordAnalysis :=
  let bassRootName := getRootSpelling bassPitchClass (some upcs)
  { root := bassRootName,
    quality := "",
    bass := bassRootName,
    display := String.intercalate " " (sorted.map (fun n => getChordToneSpelling (n % 12) bassPitchClass)),
    intervals := intervalsFromRoot upcs bassPitchClass,
    detectedRootPitchClass := bassPitchClass,
    isRootless := false,
    actualIntervals := [] }

/-- The `best` match after the three post-selection disambiguation blocks,
given the pre-computed octave-aware context of the initially selected
match (`best0 = matches[0]`). -/
def finishBest (sorted : List Nat) (upcs : List Nat) (sortedMatches : List Match)
    (best0 : Match) : Match :=
  let actualIntervals := calculateActualIntervals sorted best0.root
  let candidateIntervals := upcs.map (fun n => (n + 12 - best0.root) % 12)
  let hasMaj3 := candidateIntervals.contains 4
  let hasMin3 := candidateIntervals.contains 3
  let hasMaj7 := candidateIntervals.contains 11
  let hasDom7 := candidateIntervals.contains 10
  let has7th := hasMaj7 || hasDom7
  let hasTritone := candidateIntervals.contains 6
  let hasNatural5 := candidateIntervals.contains 7
  let hasPitchClass8 := candidateIntervals.contains 8
  let tensionInfo := disambiguateTensions actualIntervals best0.root hasMaj3 hasMin3 has7th hasNatural5
  disambPipeline sortedMatches best0 hasMaj3 hasMin3 has7th hasTritone hasNatural5
      hasPitchClass8 tensionInfo.interval3IsSharp9 tensionInfo.interval6IsSharp11

/-- The tail of `analyzeChord` once at least one match exists: compute the
octave-aware context for the selected best match, run the three
disambiguation blocks, and assemble the `ChordAnalysis`. -/
def finishAnalysis (sorted : List Nat) (bassPitchClass : Nat) (upcs : List Nat)
    (sortedMatches : List Match) (best0 : Match) : ChordAnalysis :=
  let actualIntervals := calculateActualIntervals sorted best0.root
  let best := finishBest sorted upcs sortedMatches best0
  let rootName := getRootSpelling best.root (some upcs)
  let bassName := getChordToneSpelling bassPitchClass best.root
  let isInversion := (best.root != bassPitchClass) && !best.isRootless
  let displayName := rootName ++ best.pattern.name ++
      (if best.isRootless then " (rootless)" else "") ++
      (if isInversion then "/" ++ bassName else "")
  { root := rootName,
    quality := best.pattern.name,
    bass := bassName,
    display := displayName,
    intervals := best.pattern.intervals,
    detectedRootPitchClass := best.root,
    isRootless := best.isRootless,
    actualIntervals := actualIntervals.map (fun ai => ai.actualInterval) }

/-- The body of `analyzeChord` for a non-empty input. -/
def analyzeNonempty (activeNotes : List Nat) : ChordAnalysis :=
  let sorted := List.insertionSort (· ≤ ·) activeNotes
  let bassPitchClass := (sorted.headD 0) % 12
  let upcs := uniquePitchClasses sorted
  match sortMatches (generateMatches upcs) with
  | [] => fallbackAnalysis sorted bassPitchClass upcs
  | best :: rest => finishAnalysis sorted bassPitchClass upcs (best :: rest) best

/-- `analyzeChord(activeNotes)`: the sole entry point of the engine.
Returns `none` exactly on the empty input. -/
def analyzeChord (activeNotes : List Nat) : Option ChordAnalysis :=
  if activeNotes.length < 1 then none
  else some (analyzeNonempty activeNotes)

/-! ## The inline copy of the engine in the monolithic app file

The app file defines its own `CHORD_PATTERNS`, helpers and
`analyzeChord` inline; they are duplicated here, in namespace `App`,
from that file, so that the two entry points can be compared. -/

namespace App
/-- The `scale` component of the hand-authored `ROOT_SPELLING` table:
for each root pitch class, the spelling of every semitone degree. -/
def ROOT_SPELLING_scale (r : Nat) : List String :=
  match r with
  | 0  => ["C", "Db", "D", "Eb", "E", "F", "F#", "G", "Ab", "A", "Bb", "B"]
  | 1  => ["C#", "D", "D#", "E", "E#", "F#", "G", "G#", "A", "A#", "B", "B#"]
  | 2  => ["D", "Eb", "E", "F", "F#", "G", "Ab", "A", "Bb", "B", "C", "C#"]
  | 3  => ["Eb", "Fb", "F", "Gb", "G", "Ab", "A", "Bb", "Cb", "C", "Db", "D"]
  | 4  => ["E", "F", "F#", "G", "G#", "A", "Bb", "B", "C", "C#", "D", "D#"]
  | 5  => ["F", "Gb", "G", "Ab", "A", "Bb", "B", "C", "Db", "D", "Eb", "E"]
  | 6  => ["F#", "G", "G#", "A", "A#", "B", "C", "C#", "D", "D#", "E", "E#"]
  | 7  => ["G", "Ab", "A", "Bb", "B", "C", "Db", "D", "Eb", "E", "F", "F#"]
  | 8  => ["Ab", "A", "Bb", "Cb", "C", "Db", "D", "Eb", "Fb", "F", "Gb", "G"]
  | 9  => ["A", "Bb", "B", "C", "C#", "D", "Eb", "E", "F", "F#", "G", "G#"]
  | 10 => ["Bb", "Cb", "C", "Db", "D", "Eb", "Fb", "F", "Gb", "G", "Ab", "A"]
  | 11 => ["B", "C", "C#", "D", "D#", "E"] ++ ["F", "F#", "G", "G#", "A", "A#"]
  | _  => []

/-- `getRootSpelling(rootPitchClass, bassContext?)`: context-sensitive
enharmonic spelling of a root.  The optional JS argument is an `Option`. -/
def getRootSpelling (rootPitchClass : Nat) (bassContext : Option (List Nat)) : String :=
  let hasSharpIndicators :=
    match bassContext with
    | none => false
    | some c => c.contains 6 || c.contains 1 || c.contains 8 || c.contains 4 || c.contains 11
  let hasFlatIndicators :=
    match bassContext with
    | none => false
    | some c => c.contains 10 || c.contains 3 || c.contains 5
  if rootPitchClass == 1 then
    if hasFlatIndicators && !hasSharpIndicators then "Db" else "C#"
  else if rootPitchClass == 3 then
    if hasSharpIndicators && !hasFlatIndicators &&
        (match bassContext with
         | none => false
         | some c => c.contains 4 || c.contains 11 || c.contains 6) then
      "D#"
    else "Eb"
  else if rootPitchClass == 6 then
    if hasFlatIndicators &&
        (match bassContext with
         | none => false
         | some c => (c.contains 1 || c.contains 8) && !(c.contains 4) && !(c.contains 11)) then
      "Gb"
    else "F#"
  else if rootPitchClass == 8 then
    if hasSharpIndicators && !hasFlatIndicators &&
        (match bassContext with
         | none => false
         | some c => c.contains 4 || c.contains 9 || c.contains 11) then
      "G#"
    else "Ab"
  else if rootPitchClass == 10 then
    if hasSharpIndicators && !hasFlatIndicators &&
        (match bassContext with
         | none => false
         | some c => c.contains 11 || c.contains 6) then
      "A#"
    else "Bb"
  else (ROOT_SPELLING_scale rootPitchClass).getD 0 ""

/-- `getChordToneSpelling(pitchClass, rootPitchClass)`: scale-table lookup
at `((pitchClass - rootPitchClass) % 12 + 12) % 12` (both arguments are
pitch classes 0–11 at every call site, so `pc + 12 - root` is exact). -/
def getChordToneSpelling (pitchClass rootPitchClass : Nat) : String :=
  (ROOT_SPELLING_scale rootPitchClass).getD ((pitchClass + 12 - rootPitchClass) % 12) ""

/-- `normalizeIntervals`: mod 12, deduplicated, sorted ascending. -/
def normalizeIntervals (intervals : List Nat) : List Nat :=
  List.insertionSort (· ≤ ·) (intervals.map (fun i => i % 12)).dedup

/-- `Array.from(new Set(sorted.map(n => n % 12))).sort((a,b) => a-b)`:
the ascending list of distinct pitch classes of the input notes. -/
def uniquePitchClasses (sorted : List Nat) : List Nat :=
  List.insertionSort (· ≤ ·) (sorted.map (fun n => n % 12)).dedup

/-- The root-relative interval list of the played pitch classes, sorted
ascending: `uniquePitchClasses.map(n => (n - root + 12) % 12).sort()`. -/
def intervalsFromRoot (upcs : List Nat) (root : Nat) : List Nat :=
  List.insertionSort (· ≤ ·) (upcs.map (fun n => (n + 12 - root) % 12))

/-- `COMMON_EXTENSIONS = new Set([2, 5, 9])`. -/
def COMMON_EXTENSIONS : List Nat := [2, 5, 9]

/-- `calculateExtraNotesPenalty`: 3 points per common-extension extra when
the pattern has a 7th, 6 without one, 18 for any other extra tone. -/
def calculateExtraNotesPenalty (extraIntervals patternIntervals : List Nat) : Nat :=
  let patternHas7th := patternIntervals.any (fun i => i == 10 || i == 11)
  extraIntervals.foldl
    (fun penalty interval =>
      penalty + (if COMMON_EXTENSIONS.contains interval then (if patternHas7th then 3 else 6) else 18))
    0

/-- The static `CHORD_PATTERNS` catalog from the chord-analysis library. -/
def CHORD_PATTERNS : List ChordPattern := [
  { name := "Maj13", intervals := normalizeIntervals [0, 4, 7, 11, 14, 21], priority := 65, allowOmit5th := true },
  { name := "13", intervals := normalizeIntervals [0, 4, 7, 10, 14, 21], priority := 65, allowOmit5th := true },
  { name := "min13", intervals := normalizeIntervals [0, 3, 7, 10, 14, 21], priority := 65, allowOmit5th := true },
  { name := "13sus4", intervals := normalizeIntervals [0, 5, 7, 10, 14, 21], priority := 64, allowOmit5th := true },
  { name := "Maj9#11", intervals := normalizeIntervals [0, 4, 7, 11, 14, 18], priority := 62, allowOmit5th := true },
  { name := "9#11", intervals := normalizeIntervals [0, 4, 7, 10, 14, 18], priority := 62, allowOmit5th := true },
  { name := "Maj11", intervals := normalizeIntervals [0, 4, 7, 11, 14, 17], priority := 60, allowOmit5th := true },
  { name := "11", intervals := normalizeIntervals [0, 4, 7, 10, 14, 17], priority := 60, allowOmit5th := true },
  { name := "min11", intervals := normalizeIntervals [0, 3, 7, 10, 14, 17], priority := 60, allowOmit5th := true },
  { name := "Maj9", intervals := normalizeIntervals [0, 4, 7, 11, 14], priority := 55, allowOmit5th := true },
  { name := "9", intervals := normalizeIntervals [0, 4, 7, 10, 14], priority := 55, allowOmit5th := true },
  { name := "min9", intervals := normalizeIntervals [0, 3, 7, 10, 14], priority := 55, allowOmit5th := true },
  { name := "minMaj9", intervals := normalizeIntervals [0, 3, 7, 11, 14], priority := 55, allowOmit5th := true },
  { name := "9sus4", intervals := normalizeIntervals [0, 5, 7, 10, 14], priority := 54, allowOmit5th := true },
  { name := "13b9", intervals := normalizeIntervals [0, 4, 7, 10, 13, 21], priority := 66, allowOmit5th := true },
  { name := "13#9", intervals := normalizeIntervals [0, 4, 7, 10, 15, 21], priority := 66, allowOmit5th := true },
  { name := "7b9#11", intervals := normalizeIntervals [0, 4, 7, 10, 13, 18], priority := 58, allowOmit5th := true },
  { name := "7#9#11", intervals := normalizeIntervals [0, 4, 7, 10, 15, 18], priority := 58, allowOmit5th := true },
  { name := "7b9b13", intervals := normalizeIntervals [0, 4, 7, 10, 13, 20], priority := 58 },
  { name := "7#9b13", intervals := normalizeIntervals [0, 4, 7, 10, 15, 20], priority := 58 },
  { name := "7alt", intervals := normalizeIntervals [0, 4, 6, 10, 13, 15], priority := 59 },
  { name := "Maj7#9", intervals := normalizeIntervals [0, 4, 7, 11, 15], priority := 56, allowOmit5th := true },
  { name := "7#9", intervals := normalizeIntervals [0, 4, 7, 10, 15], priority := 54, allowOmit5th := true },
  { name := "7b9", intervals := normalizeIntervals [0, 4, 7, 10, 13], priority := 54, allowOmit5th := true },
  { name := "7#5#9", intervals := normalizeIntervals [0, 4, 8, 10, 15], priority := 56 },
  { name := "7#5b9", intervals := normalizeIntervals [0, 4, 8, 10, 13], priority := 56 },
  { name := "7b5b9", intervals := normalizeIntervals [0, 4, 6, 10, 13], priority := 56 },
  { name := "7b5#9", intervals := normalizeIntervals [0, 4, 6, 10, 15], priority := 56 },
  { name := "7b13", intervals := normalizeIntervals [0, 4, 7, 10, 20], priority := 53 },
  { name := "m9b5", intervals := normalizeIntervals [0, 3, 6, 10, 14], priority := 56 },
  { name := "m11b5", intervals := normalizeIntervals [0, 3, 6, 10, 14, 17], priority := 58 },
  { name := "m7b5(11)", intervals := normalizeIntervals [0, 3, 6, 10, 17], priority := 54 },
  { name := "Maj7#11", intervals := normalizeIntervals [0, 4, 7, 11, 18], priority := 52, allowOmit5th := true },
  { name := "7#11", intervals := normalizeIntervals [0, 4, 7, 10, 18], priority := 52, allowOmit5th := true },
  { name := "6/9", intervals := normalizeIntervals [0, 4, 7, 9, 14], priority := 52, allowOmit5th := true },
  { name := "min6/9", intervals := normalizeIntervals [0, 3, 7, 9, 14], priority := 52, allowOmit5th := true },
  { name := "7sus4", intervals := [0, 5, 7, 10], priority := 46 },
  { name := "7sus2", intervals := [0, 2, 7, 10], priority := 46 },
  { name := "Maj7sus4", intervals := [0, 5, 7, 11], priority := 46 },
  { name := "Maj7sus2", intervals := [0, 2, 7, 11], priority := 46 },
  { name := "Maj7", intervals := [0, 4, 7, 11], priority := 45, allowOmit5th := true },
  { name := "min7", intervals := [0, 3, 7, 10], priority := 45, allowOmit5th := true },
  { name := "7", intervals := [0, 4, 7, 10], priority := 45, allowOmit5th := true },
  { name := "dim7", intervals := [0, 3, 6, 9], priority := 45 },
  { name := "m7b5", intervals := [0, 3, 6, 10], priority := 45 },
  { name := "minMaj7", intervals := [0, 3, 7, 11], priority := 45, allowOmit5th := true },
  { name := "Maj7#5", intervals := [0, 4, 8, 11], priority := 46 },
  { name := "7#5", intervals := [0, 4, 8, 10], priority := 46 },
  { name := "7b5", intervals := [0, 4, 6, 10], priority := 46 },
  { name := "6", intervals := [0, 4, 7, 9], priority := 42, allowOmit5th := true },
  { name := "min6", intervals := [0, 3, 7, 9], priority := 42, allowOmit5th := true },
  { name := "add9", intervals := normalizeIntervals [0, 4, 7, 14], priority := 40, allowOmit5th := true },
  { name := "madd9", intervals := normalizeIntervals [0, 3, 7, 14], priority := 40, allowOmit5th := true },
  { name := "add11", intervals := normalizeIntervals [0, 4, 7, 17], priority := 40, allowOmit5th := true },
  { name := "madd11", intervals := normalizeIntervals [0, 3, 7, 17], priority := 40, allowOmit5th := true },
  { name := "add#11", intervals := normalizeIntervals [0, 4, 7, 18], priority := 40 },
  { name := "add#9", intervals := normalizeIntervals [0, 4, 7, 15], priority := 41, allowOmit5th := true },
  { name := "madd#9", intervals := normalizeIntervals [0, 3, 7, 15], priority := 41, allowOmit5th := true },
  { name := "(add b3)", intervals := [0, 3, 4, 7], priority := 40 },
  { name := "m(add 3)", intervals := [0, 3, 4, 7], priority := 39 },
  { name := "", intervals := [0, 4, 7], priority := 35 },
  { name := "m", intervals := [0, 3, 7], priority := 35 },
  { name := "dim", intervals := [0, 3, 6], priority := 35 },
  { name := "aug", intervals := [0, 4, 8], priority := 35 },
  { name := "sus2", intervals := [0, 2, 7], priority := 33 },
  { name := "sus4", intervals := [0, 5, 7], priority := 33 },
  { name := "(#11)", intervals := [0, 4, 6], priority := 34 },
  { name := "(b5)", intervals := [0, 4, 6], priority := 33 },
  { name := "quartal", intervals := normalizeIntervals [0, 5, 10], priority := 22 },
  { name := "quartal4", intervals := normalizeIntervals [0, 5, 10, 15], priority := 23 },
  { name := "5", intervals := [0, 7], priority := 20 }
]

/-- `calculateActualIntervals`: raw octave-preserving semitone distances of
every input note from the inferred root MIDI value. -/
def calculateActualIntervals (sortedMidiNotes : List Nat) (rootPitchClass : Nat) :
    List ActualIntervalInfo :=
  if sortedMidiNotes.length == 0 then []
  else
    let rootInstances := sortedMidiNotes.filter (fun n => n % 12 == rootPitchClass)
    let rootMidi : Int :=
      if rootInstances.length > 0 then (listMinNat rootInstances : Int)
      else
        let lowestNote := sortedMidiNotes.headD 0
        let lowestPitchClass := lowestNote % 12
        let intervalFromRoot := (lowestPitchClass + 12 - rootPitchClass) % 12
        (lowestNote : Int) - (intervalFromRoot : Int)
    sortedMidiNotes.map (fun midi => ⟨midi % 12, (midi : Int) - rootMidi, midi⟩)

/-- `getActualIntervalForPitchClass`: the compound instance if one exists,
else the lowest actual interval of the target pitch class, else the
expected mod-12 interval. -/
def getActualIntervalForPitchClass (actualIntervals : List ActualIntervalInfo)
    (targetPitchClass rootPitchClass : Nat) : Int :=
  let expectedMod12 : Int := ((targetPitchClass + 12 - rootPitchClass) % 12 : Nat)
  let ms := actualIntervals.filter (fun info => info.pitchClass == targetPitchClass)
  if ms.length == 0 then expectedMod12
  else
    match ms.find? (fun m => decide (12 < m.actualInterval)) with
    | some compound => compound.actualInterval
    | none => listMinInt (ms.map (fun m => m.actualInterval))

/-- `disambiguateTensions`: octave-aware resolution of the three ambiguous
interval classes (3 = b3/#9, 6 = b5/#11, 8 = #5/b13). -/
def disambiguateTensions (actualIntervals : List ActualIntervalInfo) (rootPitchClass : Nat)
    (hasMaj3 hasMin3 has7th hasPerfect5 : Bool) : TensionDisambiguation :=
  let pitchClass3 := (rootPitchClass + 3) % 12
  let interval3Actual := getActualIntervalForPitchClass actualIntervals pitchClass3 rootPitchClass
  let interval3IsSharp9 :=
    if 14 ≤ interval3Actual then true
    else if hasMaj3 then
      let maj3PitchClass := (rootPitchClass + 4) % 12
      let maj3Instances := actualIntervals.filter (fun i => i.pitchClass == maj3PitchClass)
      let pc3Instances := actualIntervals.filter (fun i => i.pitchClass == pitchClass3)
      if maj3Instances.length > 0 && pc3Instances.length > 0 then
        decide (listMinNat (maj3Instances.map (fun i => i.midi)) <
                listMinNat (pc3Instances.map (fun i => i.midi)))
      else if has7th && pc3Instances.length > 0 then true
      else false
    else false
  let pitchClass6 := (rootPitchClass + 6) % 12
  let interval6Actual := getActualIntervalForPitchClass actualIntervals pitchClass6 rootPitchClass
  let interval6IsSharp11 :=
    if 17 ≤ interval6Actual then true
    else if hasPerfect5 && hasMaj3 then true
    else if has7th && hasMaj3 && !hasPerfect5 then
      actualIntervals.any (fun i => (i.pitchClass + 12 - rootPitchClass) % 12 == 11)
    else false
  let pitchClass8 := (rootPitchClass + 8) % 12
  let interval8Actual := getActualIntervalForPitchClass actualIntervals pitchClass8 rootPitchClass
  let interval8IsSharp5 :=
    if 19 ≤ interval8Actual then false
    else if hasPerfect5 then false
    else if !hasPerfect5 && !has7th then true
    else false
  { interval3IsSharp9 := interval3IsSharp9,
    interval6IsSharp11 := interval6IsSharp11,
    interval8IsSharp5 := interval8IsSharp5 }

/-- One iteration of the rooted matching loop body of `analyzeChord` for a
given candidate root and pattern: exact match, else superset match, else
match with omitted 5th (the source `continue`s make these exclusive). -/
def rootedMatch (upcs : List Nat) (potentialRoot : Nat) (pattern : ChordPattern) : Option Match :=
  let intervals := intervalsFromRoot upcs potentialRoot
  if pattern.intervals.length == intervals.length &&
      pattern.intervals.all (fun i => intervals.contains i) then
    some ⟨pattern, potentialRoot, (pattern.priority : Int) * 100 + 1000, false, true⟩
  else if pattern.intervals.all (fun i => intervals.contains i) then
    let extraIntervals := intervals.filter (fun i => !(pattern.intervals.contains i))
    let penalty := calculateExtraNotesPenalty extraIntervals pattern.intervals
    some ⟨pattern, potentialRoot, (pattern.priority : Int) * 100 - (penalty : Int), false, false⟩
  else if pattern.allowOmit5th && pattern.intervals.contains 7 then
    let patternWithout5th := pattern.intervals.filter (fun i => i != 7)
    if patternWithout5th.all (fun i => intervals.contains i) && !(intervals.contains 7) then
      let extraIntervals := intervals.filter (fun i => !(pattern.intervals.contains i) && i != 7)
      let penalty := calculateExtraNotesPenalty extraIntervals pattern.intervals
      some ⟨pattern, potentialRoot, (pattern.priority : Int) * 100 - 15 - (penalty : Int), false, false⟩
    else none
  else none

/-- One iteration of the rootless matching loop body of `analyzeChord` for
a given absent root and pattern: the full-minus-root case and the
minus-root-minus-5th case are independent `if`s in the source, so both can
in principle contribute. -/
def rootlessMatchesFor (upcs : List Nat) (potentialRoot : Nat) (pattern : ChordPattern) :
    List Match :=
  let intervals := intervalsFromRoot upcs potentialRoot
  if pattern.intervals.length < 4 then []
  else if !(pattern.intervals.contains 0) then []
  else
    let patternWithoutRoot := pattern.intervals.filter (fun i => i != 0)
    let full : List Match :=
      if patternWithoutRoot.all (fun i => intervals.contains i) && patternWithoutRoot.length ≥ 3 then
        let extraIntervals := intervals.filter (fun i => !(patternWithoutRoot.contains i))
        let penalty := calculateExtraNotesPenalty extraIntervals pattern.intervals
        [⟨pattern, potentialRoot, (pattern.priority : Int) * 80 - 50 - (penalty : Int), true, false⟩]
      else []
    let omit5 : List Match :=
      if pattern.allowOmit5th then
        let patternWithoutRootAnd5th := patternWithoutRoot.filter (fun i => i != 7)
        if patternWithoutRootAnd5th.all (fun i => intervals.contains i) &&
            !(intervals.contains 7) && patternWithoutRootAnd5th.length ≥ 2 then
          let extraIntervals := intervals.filter (fun i => !(patternWithoutRootAnd5th.contains i))
          let penalty := calculateExtraNotesPenalty extraIntervals pattern.intervals
          [⟨pattern, potentialRoot, (pattern.priority : Int) * 70 - 80 - (penalty : Int), true, false⟩]
        else []
      else []
    full ++ omit5

/-- The full `matches` list of `analyzeChord`: the rooted loop over each
played pitch class, then the rootless loop over the absent pitch classes,
each over the whole pattern catalog in order. -/
def generateMatches (upcs : List Nat) : List Match :=
  (upcs.flatMap (fun r => CHORD_PATTERNS.filterMap (fun p => rootedMatch upcs r p))) ++
  (((List.range 12).filter (fun r => !(upcs.contains r))).flatMap
    (fun r => CHORD_PATTERNS.flatMap (fun p => rootlessMatchesFor upcs r p)))

/-- `matches.sort((a, b) => b.score - a.score)`: stable descending sort by
score (`List.insertionSort` is stable in the same sense as JS sort). -/
def sortMatches (ms : List Match) : List Match :=
  List.insertionSort (fun a b => Match.score b ≤ Match.score a) ms

/-- `{ ...best, pattern: { ...originalPattern, name: newName } }`: the
rename-in-place operation; every field except the pattern name is kept. -/
def withName (b : Match) (n : String) : Match :=
  { b with pattern := { b.pattern with name := n } }

/-- The `#9` vs `b3` post-match disambiguation block of `analyzeChord`
(entered only when both interval 3 and interval 4 are present). -/
def disamb9 (ms : List Match) (best : Match) (isSharp9 : Bool) : Match :=
  if isSharp9 then
    match ms.find? (fun m => strIncludes m.pattern.name "#9" && (m.root == best.root) &&
        decide (best.score - 150 < m.score)) with
    | some m =>
      if !(strIncludes best.pattern.name "#9") then m else best
    | none =>
      if !(strIncludes best.pattern.name "#9") && !(strIncludes best.pattern.name "m") then
        if best.pattern.name == "" || best.pattern.name.startsWith "add" ||
            best.pattern.name.startsWith "Maj" || best.pattern.name == "7" then
          withName best
            (if best.pattern.name == "" then "add#9"
             else if !(strIncludes best.pattern.name "#9") then best.pattern.name ++ "(#9)"
             else best.pattern.name)
        else best
      else best
  else
    if strIncludes best.pattern.name "#9" then
      if !(strIncludes best.pattern.name "7") then
        match ms.find? (fun m => (m.pattern.name == "(add b3)" || m.pattern.name == "m(add 3)") &&
            (m.root == best.root)) with
        | some c => c
        | none =>
          let n1 := jsReplace (jsReplace (jsReplace best.pattern.name "#9" "b3") "add" "(add ")
              "madd" "m(add "
          withName best (if strIncludes n1 "(add " && !(n1.endsWith ")") then n1 ++ ")" else n1)
      else
        withName best (jsReplace best.pattern.name "#9" "(add b3)")
    else best

/-- The `else if` chain of the sharp-11 case of the `#11` vs `b5` block:
run when the `#11` alternate switch did not fire.  (The `(b5)` fragment
branch is unreachable because `"(b5)"` contains `"b5"`, but it is kept,
faithful to the source.) -/
def disamb11sharpRest (ms : List Match) (best : Match) : Match :=
  if strIncludes best.pattern.name "b5" then
    withName best (jsReplace best.pattern.name "b5" "#11")
  else if best.pattern.name == "(b5)" then
    match ms.find? (fun m => m.pattern.name == "(#11)" && (m.root == best.root)) with
    | some f => f
    | none => best
  else best

/-- The `#11` vs `b5` post-match disambiguation block of `analyzeChord`
(entered only when interval 6 is present). -/
def disamb11 (ms : List Match) (best : Match) (isSharp11 hasNatural5 : Bool) : Match :=
  if isSharp11 then
    match ms.find? (fun m => strIncludes m.pattern.name "#11" && (m.root == best.root) &&
        decide (best.score - 150 < m.score)) with
    | some m =>
      if !(strIncludes best.pattern.name "#11") then m else disamb11sharpRest ms best
    | none => disamb11sharpRest ms best
  else
    if best.pattern.name == "(#11)" then
      match ms.find? (fun m => m.pattern.name == "(b5)" && (m.root == best.root)) with
      | some f => f
      | none => withName best "(b5)"
    else if strIncludes best.pattern.name "#11" && !hasNatural5 then
      match ms.find? (fun m => strIncludes m.pattern.name "b5" && (m.root == best.root) &&
          decide (best.score - 150 < m.score)) with
      | some m => m
      | none => withName best (jsReplace best.pattern.name "#11" "b5")
    else best

/-- The `#5` vs `b13` post-match disambiguation block of `analyzeChord`
(entered only when intervals 8 and 7 and a 7th are all present). -/
def disamb513 (ms : List Match) (best : Match) : Match :=
  if strIncludes best.pattern.name "#5" && !(strIncludes best.pattern.name "aug") then
    match ms.find? (fun m => strIncludes m.pattern.name "b13" && (m.root == best.root) &&
        decide (best.score - 150 < m.score)) with
    | some m => m
    | none => best
  else best

/-- The three sequential post-match disambiguation blocks of
`analyzeChord`, applied to the selected best match.  The third block does
not consult the tension-disambiguation result, only pattern names, exactly
as in the source. -/
def disambPipeline (ms : List Match) (best0 : Match)
    (hasMaj3 hasMin3 has7th hasTritone hasNatural5 hasPitchClass8 t3 t6 : Bool) : Match :=
  let best1 := if hasMin3 && hasMaj3 then disamb9 ms best0 t3 else best0
  let best2 := if hasTritone then disamb11 ms best1 t6 hasNatural5 else best1
  if hasPitchClass8 && hasNatural5 && has7th then disamb513 ms best2 else best2

/-- The `matches.length === 0` fallback of `analyzeChord`: a raw
description of the notes relative to the bass with empty quality. -/
def fallbackAnalysis (sorted : List Nat) (bassPitchClass : Nat) (upcs : List Nat) :
    ChordAnalysis :=
  let bassRootName := getRootSpelling bassPitchClass (some upcs)
  { root := bassRootName,
    quality := "",
    bass := bassRootName,
    display := String.intercalate " " (sorted.map (fun n => getChordToneSpelling (n % 12) bassPitchClass)),
    intervals := intervalsFromRoot upcs bassPitchClass,
    detectedRootPitchClass := bassPitchClass,
    isRootless := false,
    actualIntervals := [] }

/-- The `best` match after the three post-selection disambiguation blocks,
given the pre-computed octave-aware context of the initially selected
match (`best0 = matches[0]`). -/
def finishBest (sorted : List Nat) (upcs : List Nat) (sortedMatches : List Match)
    (best0 : Match) : Match :=
  let actualIntervals := calculateActualIntervals sorted best0.root
  let candidateIntervals := upcs.map (fun n => (n + 12 - best0.root) % 12)
  let hasMaj3 := candidateIntervals.contains 4
  let hasMin3 := candidateIntervals.contains 3
  let hasMaj7 := candidateIntervals.contains 11
  let hasDom7 := candidateIntervals.contains 10
  let has7th := hasMaj7 || hasDom7
  let hasTritone := candidateIntervals.contains 6
  let hasNatural5 := candidateIntervals.contains 7
  let hasPitchClass8 := candidateIntervals.contains 8
  let tensionInfo := disambiguateTensions actualIntervals best0.root hasMaj3 hasMin3 has7th hasNatural5
  disambPipeline sortedMatches best0 hasMaj3 hasMin3 has7th hasTritone hasNatural5
      hasPitchClass8 tensionInfo.interval3IsSharp9 tensionInfo.interval6IsSharp11

/-- The tail of `analyzeChord` once at least one match exists: compute the
octave-aware context for the selected best match, run the three
disambiguation blocks, and assemble the `ChordAnalysis`. -/
def finishAnalysis (sorted : List Nat) (bassPitchClass : Nat) (upcs : List Nat)
    (sortedMatches : List Match) (best0 : Match) : ChordAnalysis :=
  let actualIntervals := calculateActualIntervals sorted best0.root
  let best := finishBest sorted upcs sortedMatches best0
  let rootName := getRootSpelling best.root (some upcs)
  let bassName := getChordToneSpelling bassPitchClass best.root
  let isInversion := (best.root != bassPitchClass) && !best.isRootless
  let displayName := rootName ++ best.pattern.name ++
      (if best.isRootless then " (rootless)" else "") ++
      (if isInversion then "/" ++ bassName else "")
  { root := rootName,
    quality := best.pattern.name,
    bass := bassName,
    display := displayName,
    intervals := best.pattern.intervals,
    detectedRootPitchClass := best.root,
    isRootless := best.isRootless,
    actualIntervals := actualIntervals.map (fun ai => ai.actualInterval) }

/-- The body of `analyzeChord` for a non-empty input. -/
def analyzeNonempty (activeNotes : List Nat) : ChordAnalysis :=
  let sorted := List.insertionSort (· ≤ ·) activeNotes
  let bassPitchClass := (sorted.headD 0) % 12
  let upcs := uniquePitchClasses sorted
  match sortMatches (generateMatches upcs) with
  | [] => fallbackAnalysis sorted bassPitchClass upcs
  | best :: rest => finishAnalysis sorted bassPitchClass upcs (best :: rest) best

/-- `analyzeChord(activeNotes)`: the sole entry point of the engine.
Returns `none` exactly on the empty input. -/
def analyzeChord (activeNotes : List Nat) : Option ChordAnalysis :=
  if activeNotes.length < 1 then none
  else some (analyzeNonempty activeNotes)

end App

/-! ## Frame lemmas for the disambiguation pipeline -/

/-- Agreement of two matches in every field except the pattern name: the
shape a rename-in-place preserves. -/
def MatchAgrees (m b : Match) : Prop :=
  b.root = m.root ∧ b.score = m.score ∧ b.isRootless = m.isRootless ∧
  b.isExact = m.isExact ∧ b.pattern.intervals = m.pattern.intervals ∧
  b.pattern.priority = m.pattern.priority ∧ b.pattern.allowOmit5th = m.pattern.allowOmit5th

instance (m b : Match) : Decidable (MatchAgrees m b) := by
  unfold MatchAgrees; infer_instance

theorem matchAgrees_self (m : Match) : MatchAgrees m m :=
  ⟨rfl, rfl, rfl, rfl, rfl, rfl, rfl⟩

@[simp]
theorem withName_root (b : Match) (n : String) : (withName b n).root = b.root := rfl

theorem matchAgrees_withName {m b : Match} (n : String) (h : MatchAgrees m b) :
    MatchAgrees m (withName b n) := h

theorem exists_agrees_withName {ms : List Match} {b : Match} (n : String)
    (h : ∃ m ∈ ms, MatchAgrees m b) : ∃ m ∈ ms, MatchAgrees m (withName b n) := h

theorem exists_agrees_of_mem {ms : List Match} {c : Match} (hc : c ∈ ms) :
    ∃ m ∈ ms, MatchAgrees m c := ⟨c, hc, matchAgrees_self c⟩


theorem disamb9_root (ms : List Match) (best : Match) (t : Bool) :
    (disamb9 ms best t).root = best.root := by
  unfold disamb9
  split
  · split
    · rename_i m heq
      have hp := List.find?_some heq
      simp only [Bool.and_eq_true, beq_iff_eq, decide_eq_true_eq] at hp
      split
      · exact hp.1.2
      · rfl
    · split
      · split
        · rfl
        · rfl
      · rfl
  · split
    · split
      · split
        · rename_i c heq
          have hp := List.find?_some heq
          simp only [Bool.and_eq_true, Bool.or_eq_true, beq_iff_eq] at hp
          exact hp.2
        · rfl
      · rfl
    · rfl

theorem disamb11sharpRest_root (ms : List Match) (best : Match) :
    (disamb11sharpRest ms best).root = best.root := by
  unfold disamb11sharpRest
  split
  · rfl
  · split
    · split
      · rename_i f heq
        have hp := List.find?_some heq
        simp only [Bool.and_eq_true, beq_iff_eq] at hp
        exact hp.2
      · rfl
    · rfl

theorem disamb11_root (ms : List Match) (best : Match) (t h5 : Bool) :
    (disamb11 ms best t h5).root = best.root := by
  unfold disamb11
  split
  · split
    · rename_i m heq
      split
      · have hp := List.find?_some heq
        simp only [Bool.and_eq_true, beq_iff_eq, decide_eq_true_eq] at hp
        exact hp.1.2
      · exact disamb11sharpRest_root ms best
    · exact disamb11sharpRest_root ms best
  · split
    · split
      · rename_i f heq
        have hp := List.find?_some heq
        simp only [Bool.and_eq_true, beq_iff_eq] at hp
        exact hp.2
      · rfl
    · split
      · split
        · rename_i m heq
          have hp := List.find?_some heq
          simp only [Bool.and_eq_true, beq_iff_eq, decide_eq_true_eq] at hp
          exact hp.1.2
        · rfl
      · rfl

theorem disamb513_root (ms : List Match) (best : Match) :
    (disamb513 ms best).root = best.root := by
  unfold disamb513
  split
  · split
    · rename_i m heq
      have hp := List.find?_some heq
      simp only [Bool.and_eq_true, beq_iff_eq, decide_eq_true_eq] at hp
      exact hp.1.2
    · rfl
  · rfl

theorem disambPipeline_root (ms : List Match) (best0 : Match)
    (h3 hm3 h7 hT h5 h8 t3 t6 : Bool) :
    (disambPipeline ms best0 h3 hm3 h7 hT h5 h8 t3 t6).root = best0.root := by
  unfold disambPipeline
  dsimp only
  split
  · rw [disamb513_root]
    split
    · rw [disamb11_root]
      split
      · rw [disamb9_root]
      · rfl
    · split
      · rw [disamb9_root]
      · rfl
  · split
    · rw [disamb11_root]
      split
      · rw [disamb9_root]
      · rfl
    · split
      · rw [disamb9_root]
      · rfl

theorem disamb9_agrees (ms : List Match) (best : Match) (t : Bool)
    (h : ∃ m ∈ ms, MatchAgrees m best) : ∃ m ∈ ms, MatchAgrees m (disamb9 ms best t) := by
  unfold disamb9
  split
  · split
    · rename_i m heq
      split
      · exact exists_agrees_of_mem (List.mem_of_find?_eq_some heq)
      · exact h
    · split
      · split
        · exact exists_agrees_withName _ h
        · exact h
      · exact h
  · split
    · split
      · split
        · rename_i c heq
          exact exists_agrees_of_mem (List.mem_of_find?_eq_some heq)
        · exact exists_agrees_withName _ h
      · exact exists_agrees_withName _ h
    · exact h

theorem disamb11sharpRest_agrees (ms : List Match) (best : Match)
    (h : ∃ m ∈ ms, MatchAgrees m best) :
    ∃ m ∈ ms, MatchAgrees m (disamb11sharpRest ms best) := by
  unfold disamb11sharpRest
  split
  · exact exists_agrees_withName _ h
  · split
    · split
      · rename_i f heq
        exact exists_agrees_of_mem (List.mem_of_find?_eq_some heq)
      · exact h
    · exact h

theorem disamb11_agrees (ms : List Match) (best : Match) (t h5 : Bool)
    (h : ∃ m ∈ ms, MatchAgrees m best) :
    ∃ m ∈ ms, MatchAgrees m (disamb11 ms best t h5) := by
  unfold disamb11
  split
  · split
    · rename_i m heq
      split
      · exact exists_agrees_of_mem (List.mem_of_find?_eq_some heq)
      · exact disamb11sharpRest_agrees ms best h
    · exact disamb11sharpRest_agrees ms best h
  · split
    · split
      · rename_i f heq
        exact exists_agrees_of_mem (List.mem_of_find?_eq_some heq)
      · exact exists_agrees_withName _ h
    · split
      · split
        · rename_i m heq
          exact exists_agrees_of_mem (List.mem_of_find?_eq_some heq)
        · exact exists_agrees_withName _ h
      · exact h

theorem disamb513_agrees (ms : List Match) (best : Match)
    (h : ∃ m ∈ ms, MatchAgrees m best) :
    ∃ m ∈ ms, MatchAgrees m (disamb513 ms best) := by
  unfold disamb513
  split
  · split
    · rename_i m heq
      exact exists_agrees_of_mem (List.mem_of_find?_eq_some heq)
    · exact h
  · exact h

theorem disambPipeline_agrees (ms : List Match) (best0 : Match)
    (h3 hm3 h7 hT h5 h8 t3 t6 : Bool) (h : ∃ m ∈ ms, MatchAgrees m best0) :
    ∃ m ∈ ms, MatchAgrees m (disambPipeline ms best0 h3 hm3 h7 hT h5 h8 t3 t6) := by
  unfold disambPipeline
  dsimp only
  have h1 : ∃ m ∈ ms, MatchAgrees m (if (hm3 && h3 : Bool) then disamb9 ms best0 t3 else best0) := by
    split
    · exact disamb9_agrees ms best0 t3 h
    · exact h
  have h2 : ∃ m ∈ ms, MatchAgrees m (if (hT : Bool) then
      disamb11 ms (if (hm3 && h3 : Bool) then disamb9 ms best0 t3 else best0) t6 h5
      else (if (hm3 && h3 : Bool) then disamb9 ms best0 t3 else best0)) := by
    split
    · exact disamb11_agrees ms _ t6 h5 h1
    · exact h1
  split
  · exact disamb513_agrees ms _ h2
  · exact h2

theorem finishBest_root (sorted : List Nat) (upcs : List Nat) (ms : List Match) (b : Match) :
    (finishBest sorted upcs ms b).root = b.root := by
  unfold finishBest
  dsimp only
  exact disambPipeline_root ms b _ _ _ _ _ _ _ _

theorem finishBest_agrees (sorted : List Nat) (upcs : List Nat) (ms : List Match) (b : Match)
    (h : ∃ m ∈ ms, MatchAgrees m b) :
    ∃ m ∈ ms, MatchAgrees m (finishBest sorted upcs ms b) := by
  unfold finishBest
  dsimp only
  exact disambPipeline_agrees ms b _ _ _ _ _ _ _ _ h

theorem finishAnalysis_detectedRoot (sorted : List Nat) (bp : Nat) (upcs : List Nat)
    (ms : List Match) (b : Match) :
    (finishAnalysis sorted bp upcs ms b).detectedRootPitchClass = (finishBest sorted upcs ms b).root :=
  rfl

theorem finishAnalysis_isRootless (sorted : List Nat) (bp : Nat) (upcs : List Nat)
    (ms : List Match) (b : Match) :
    (finishAnalysis sorted bp upcs ms b).isRootless = (finishBest sorted upcs ms b).isRootless :=
  rfl

theorem finishAnalysis_intervals (sorted : List Nat) (bp : Nat) (upcs : List Nat)
    (ms : List Match) (b : Match) :
    (finishAnalysis sorted bp upcs ms b).intervals = (finishBest sorted upcs ms b).pattern.intervals :=
  rfl

theorem finishAnalysis_root (sorted : List Nat) (bp : Nat) (upcs : List Nat)
    (ms : List Match) (b : Match) :
    (finishAnalysis sorted bp upcs ms b).root =
      getRootSpelling (finishBest sorted upcs ms b).root (some upcs) :=
  rfl

/-! ## Invariants of the generated match list -/

theorem rootedMatch_inv {upcs : List Nat} {r : Nat} {p : ChordPattern} {m : Match}
    (h : rootedMatch upcs r p = some m) :
    m.root = r ∧ m.isRootless = false ∧ m.pattern = p ∧
    (m.isExact = true → m.score = (m.pattern.priority : Int) * 100 + 1000) ∧
    (m.isExact = false → m.score ≤ (m.pattern.priority : Int) * 100) := by
  unfold rootedMatch at h
  dsimp only at h
  split_ifs at h
  · injection h with h2
    subst h2
    refine ⟨rfl, rfl, rfl, fun _ => rfl, fun hc => ?_⟩
    simp at hc
  · injection h with h2
    subst h2
    refine ⟨rfl, rfl, rfl, fun hc => by simp at hc, fun _ => ?_⟩
    simp only
    omega
  · injection h with h2
    subst h2
    refine ⟨rfl, rfl, rfl, fun hc => by simp at hc, fun _ => ?_⟩
    simp only
    omega

theorem rootlessMatchesFor_inv {upcs : List Nat} {r : Nat} {p : ChordPattern} {m : Match}
    (h : m ∈ rootlessMatchesFor upcs r p) :
    m.root = r ∧ m.isRootless = true ∧ m.pattern = p ∧ m.isExact = false ∧
    m.score ≤ (m.pattern.priority : Int) * 100 := by
  unfold rootlessMatchesFor at h
  dsimp only at h
  split_ifs at h <;>
    simp only [List.mem_append, List.mem_singleton, List.not_mem_nil, or_false,
      false_or, or_self] at h
  all_goals
    first
      | exact h.elim
      | (rcases h with h | h <;> (subst h; exact ⟨rfl, rfl, rfl, rfl, by simp only; omega⟩))
      | (subst h; exact ⟨rfl, rfl, rfl, rfl, by simp only; omega⟩)

theorem mem_generateMatches_inv {upcs : List Nat} {m : Match}
    (h : m ∈ generateMatches upcs) :
    (m.isExact = true → m.score = (m.pattern.priority : Int) * 100 + 1000) ∧
    (m.isExact = false → m.score ≤ (m.pattern.priority : Int) * 100) ∧
    (m.isRootless = false → m.root ∈ upcs) := by
  unfold generateMatches at h
  rcases List.mem_append.mp h with h' | h'
  · rcases List.mem_flatMap.mp h' with ⟨r, hr, hm⟩
    rcases List.mem_filterMap.mp hm with ⟨p, _, hp⟩
    obtain ⟨hroot, _, _, hex, hnex⟩ := rootedMatch_inv hp
    exact ⟨hex, hnex, fun _ => hroot ▸ hr⟩
  · rcases List.mem_flatMap.mp h' with ⟨r, hr, hm⟩
    rcases List.mem_flatMap.mp hm with ⟨p, _, hp⟩
    obtain ⟨_, hrl, _, hnex, hsc⟩ := rootlessMatchesFor_inv hp
    refine ⟨fun hc => ?_, fun _ => hsc, fun hc => ?_⟩
    · rw [hnex] at hc; cases hc
    · rw [hrl] at hc; cases hc

/-! ## Sorting and pitch-class set lemmas -/

theorem sortMatches_perm (ms : List Match) : (sortMatches ms).Perm ms :=
  List.perm_insertionSort _ _

theorem sortMatches_eq_nil_iff {ms : List Match} : sortMatches ms = [] ↔ ms = [] := by
  constructor
  · intro h
    have hlen := (sortMatches_perm ms).length_eq
    rw [h] at hlen
    exact List.eq_nil_of_length_eq_zero hlen.symm
  · intro h
    rw [h]
    rfl

theorem mem_of_mem_sortMatches {ms : List Match} {m : Match} (h : m ∈ sortMatches ms) :
    m ∈ ms := (sortMatches_perm ms).subset h

theorem uniquePitchClasses_eq_of_perm {l₁ l₂ : List Nat}
    (h : (l₁.map (fun n => n % 12)).Perm (l₂.map (fun n => n % 12))) :
    uniquePitchClasses l₁ = uniquePitchClasses l₂ := by
  unfold uniquePitchClasses
  exact List.eq_of_perm_of_sorted
    ((List.perm_insertionSort _ _).trans (h.dedup.trans (List.perm_insertionSort _ _).symm))
    (List.sorted_insertionSort _ _) (List.sorted_insertionSort _ _)

theorem mem_uniquePitchClasses {l : List Nat} {p : Nat} :
    p ∈ uniquePitchClasses l ↔ p ∈ l.map (fun n => n % 12) := by
  unfold uniquePitchClasses
  rw [List.mem_insertionSort, List.mem_dedup]

/-- Context lemma for claim C9: whenever pitch class 3 itself occurs in the
spelling context, the flat indicator is set and `getRootSpelling` cannot
reach the `D#` branch. -/
theorem getRootSpelling_three_of_mem {ctx : List Nat} (h : ctx.contains 3 = true) :
    getRootSpelling 3 (some ctx) = "Eb" := by
  have h3 : 3 ∈ ctx := by simpa using h
  unfold getRootSpelling
  simp [h, h3]

theorem analyzeNonempty_eq_fallback {notes : List Nat}
    (h : sortMatches (generateMatches (uniquePitchClasses (List.insertionSort (· ≤ ·) notes))) = []) :
    analyzeNonempty notes =
      fallbackAnalysis (List.insertionSort (· ≤ ·) notes)
        (((List.insertionSort (· ≤ ·) notes).headD 0) % 12)
        (uniquePitchClasses (List.insertionSort (· ≤ ·) notes)) := by
  unfold analyzeNonempty
  dsimp only
  rw [h]

theorem analyzeNonempty_eq_finish {notes : List Nat} {b : Match} {rest : List Match}
    (h : sortMatches (generateMatches (uniquePitchClasses (List.insertionSort (· ≤ ·) notes))) = b :: rest) :
    analyzeNonempty notes =
      finishAnalysis (List.insertionSort (· ≤ ·) notes)
        (((List.insertionSort (· ≤ ·) notes).headD 0) % 12)
        (uniquePitchClasses (List.insertionSort (· ≤ ·) notes)) (b :: rest) b := by
  unfold analyzeNonempty
  dsimp only
  rw [h]

/-! ## Claim theorems -/

set_option maxRecDepth 8000

/-- C3: `analyzeChord` returns null if and only if its input sequence is
empty: `analyzeChord([])` is `none`, and every non-empty sequence of MIDI
integers yields a `ChordAnalysis` value. -/
theorem c3_null_iff_empty :
    analyzeChord [] = none ∧
    ∀ notes : List Nat, notes ≠ [] → (analyzeChord notes).isSome = true := by
  refine ⟨rfl, fun notes h => ?_⟩
  unfold analyzeChord
  rw [if_neg]
  · rfl
  · cases notes with
    | nil => exact absurd rfl h
    | cons a l => simp

/-- Witness for C3: the hypotheses hold at the concrete input `[60]`. -/
theorem c3_null_iff_empty_witness :
    ([60] : List Nat) ≠ [] ∧ (analyzeChord [60]).isSome = true :=
  ⟨by simp, c3_null_iff_empty.2 [60] (by simp)⟩

/-- C4: for the voicing `[60,64,67,70,75]` (the sharp-9 pitch class voiced
above the major 3rd) the quality contains `"#9"` and not `"b3"`; for the
re-voiced `[60,63,64,67,70]` (same pitch classes, the D# below the major
3rd) the quality contains `"(add b3)"` instead. -/
theorem c4_sharp9_voicing :
    (analyzeChord [60, 64, 67, 70, 75]).map
      (fun a => (strIncludes a.quality "#9", strIncludes a.quality "b3")) = some (true, false) ∧
    (analyzeChord [60, 63, 64, 67, 70]).map
      (fun a => strIncludes a.quality "(add b3)") = some true := by
  constructor
  · decide
  · decide

/-- C5: `analyzeChord([60,63,67,70])` (C, Eb, G, Bb) returns root `"C"`
and quality `"min7"`. -/
theorem c5_cmin7 :
    (analyzeChord [60, 63, 67, 70]).map (fun a => (a.root, a.quality)) = some ("C", "min7") := by
  decide

/-- C6: `analyzeChord([64,67,71,72])` (Cmaj7 first inversion) returns root
`"C"`, quality `"Maj7"`, bass `"E"`, and a display containing `"/E"`. -/
theorem c6_cmaj7_inversion :
    (analyzeChord [64, 67, 71, 72]).map
      (fun a => (a.root, a.quality, a.bass, strIncludes a.display "/E")) =
      some ("C", "Maj7", "E", true) := by
  decide

/-- C8: `getRootSpelling(3)` without context yields `"Eb"`, while the
sharp-indicator context `[4,11,6]` (E, B, F#) flips it to `"D#"`. -/
theorem c8_root_spelling_three :
    getRootSpelling 3 none = "Eb" ∧ getRootSpelling 3 (some [4, 11, 6]) = "D#" := by
  decide

/-- C10: the inline `analyzeChord` of the monolithic app file and the
exported `analyzeChord` of the chord-analysis library are extensionally
equal: both embeddings are definitionally the same function. -/
theorem c10_app_library_equal : ∀ notes : List Nat, App.analyzeChord notes = analyzeChord notes :=
  fun _ => rfl

theorem analyzeChord_eq_some {notes : List Nat} (h : notes ≠ []) :
    analyzeChord notes = some (analyzeNonempty notes) := by
  unfold analyzeChord
  rw [if_neg]
  cases notes with
  | nil => exact absurd rfl h
  | cons a l => simp

theorem insertionSort_ne_nil {notes : List Nat} (h : notes ≠ []) :
    List.insertionSort (· ≤ ·) notes ≠ [] := by
  intro hc
  have hlen := (List.perm_insertionSort (· ≤ ·) notes).length_eq
  rw [hc] at hlen
  exact h (List.eq_nil_of_length_eq_zero hlen.symm)

/-! ## No-match inputs are singletons

The no-match fallback of `analyzeChord` is reachable only when the input
sounds a single pitch class: for any two distinct pitch classes some
catalog pattern always produces a match.  The proof is a case split on the
cyclic gap between the two pitch classes, each case exhibiting a concrete
pattern of the catalog that matches. -/

theorem contains_intervalsFromRoot {u : List Nat} {a k : Nat} :
    (intervalsFromRoot u a).contains k = true ↔ ∃ n ∈ u, (n + 12 - a) % 12 = k := by
  unfold intervalsFromRoot
  constructor
  · intro h
    have hm : k ∈ List.insertionSort (· ≤ ·) (u.map fun n => (n + 12 - a) % 12) := by
      simpa using h
    rw [List.mem_insertionSort] at hm
    simpa using hm
  · intro h
    have hm : k ∈ List.insertionSort (· ≤ ·) (u.map fun n => (n + 12 - a) % 12) := by
      rw [List.mem_insertionSort]
      simpa using h
    simpa using hm

theorem contains_intervalsFromRoot_of_mem {u : List Nat} {a k : Nat}
    (ha12 : a < 12) (hk12 : k < 12) (hb : (a + k) % 12 ∈ u) :
    (intervalsFromRoot u a).contains k = true :=
  contains_intervalsFromRoot.mpr ⟨(a + k) % 12, hb, by omega⟩

theorem not_contains_intervalsFromRoot {u : List Nat} (hu : ∀ z ∈ u, z < 12) {a k : Nat}
    (ha12 : a < 12) (hk12 : k < 12) (hk : (a + k) % 12 ∉ u) :
    (intervalsFromRoot u a).contains k = false := by
  cases hcc : (intervalsFromRoot u a).contains k with
  | false => rfl
  | true =>
    obtain ⟨n, hn, he⟩ := contains_intervalsFromRoot.mp hcc
    have hn12 := hu n hn
    have hne : n = (a + k) % 12 := by omega
    exact absurd (hne ▸ hn) hk

theorem contains_eq_false_of_not_mem {u : List Nat} {t : Nat} (h : t ∉ u) :
    u.contains t = false := by
  cases hc : u.contains t with
  | false => rfl
  | true => exact absurd (by simpa using hc) h

theorem mem_generateMatches_rooted {u : List Nat} {r : Nat} {p : ChordPattern} {m : Match}
    (hr : r ∈ u) (hp : p ∈ CHORD_PATTERNS) (hm : rootedMatch u r p = some m) :
    m ∈ generateMatches u := by
  unfold generateMatches
  exact List.mem_append_left _
    (List.mem_flatMap.mpr ⟨r, hr, List.mem_filterMap.mpr ⟨p, hp, hm⟩⟩)

theorem mem_generateMatches_rootless {u : List Nat} {r : Nat} {p : ChordPattern} {m : Match}
    (hr : r < 12) (hru : u.contains r = false) (hp : p ∈ CHORD_PATTERNS)
    (hm : m ∈ rootlessMatchesFor u r p) : m ∈ generateMatches u := by
  unfold generateMatches
  apply List.mem_append_right
  refine List.mem_flatMap.mpr ⟨r, ?_, List.mem_flatMap.mpr ⟨p, hp, hm⟩⟩
  rw [List.mem_filter]
  refine ⟨List.mem_range.mpr hr, ?_⟩
  rw [hru]
  rfl

theorem rootedMatch_isSome_of_all {u : List Nat} {r : Nat} {p : ChordPattern}
    (h : p.intervals.all (fun i => (intervalsFromRoot u r).contains i) = true) :
    ∃ m, rootedMatch u r p = some m := by
  unfold rootedMatch
  dsimp only
  split_ifs with h1
  · exact ⟨_, rfl⟩
  · exact ⟨_, rfl⟩

theorem rootedMatch_isSome_omit5 {u : List Nat} {r : Nat} {p : ChordPattern}
    (ha : p.allowOmit5th = true) (h7 : p.intervals.contains 7 = true)
    (hall : (p.intervals.filter (fun i => i != 7)).all
      (fun i => (intervalsFromRoot u r).contains i) = true)
    (hno7 : (intervalsFromRoot u r).contains 7 = false) :
    ∃ m, rootedMatch u r p = some m := by
  unfold rootedMatch
  dsimp only
  split_ifs with h1 h2 h3 h4
  · exact ⟨_, rfl⟩
  · exact ⟨_, rfl⟩
  · exact ⟨_, rfl⟩
  · exact absurd (by rw [hall, hno7]; rfl) h4
  · exact absurd (by rw [ha, h7]; rfl) h3

theorem rootlessMatchesFor_ne_nil {u : List Nat} {r : Nat} {p : ChordPattern}
    (hlen : ¬ p.intervals.length < 4) (h0 : p.intervals.contains 0 = true)
    (ha : p.allowOmit5th = true)
    (hall : ((p.intervals.filter (fun i => i != 0)).filter (fun i => i != 7)).all
      (fun i => (intervalsFromRoot u r).contains i) = true)
    (hno7 : (intervalsFromRoot u r).contains 7 = false)
    (hcore : ((p.intervals.filter (fun i => i != 0)).filter (fun i => i != 7)).length ≥ 2) :
    rootlessMatchesFor u r p ≠ [] := by
  unfold rootlessMatchesFor
  dsimp only
  split_ifs with h1 h2 h3 h4
  · exact absurd h1 (by rw [h0]; simp)
  · simp
  · simp
  · simp
  · exact absurd (by rw [hall, hno7]; simpa using hcore) h4

theorem gm_ne_nil_of_gap7 {u : List Nat} (hu : ∀ z ∈ u, z < 12) {a : Nat}
    (ha : a ∈ u) (hb : (a + 7) % 12 ∈ u) : generateMatches u ≠ [] := by
  have ha12 := hu a ha
  have hall : (([0, 7] : List Nat).all (fun i => (intervalsFromRoot u a).contains i)) = true := by
    simp only [List.all_cons, List.all_nil, Bool.and_eq_true, and_true]
    refine ⟨?_, ?_⟩
    · exact contains_intervalsFromRoot_of_mem ha12 (by omega) (by rw [show (a + 0) % 12 = a from by omega]; exact ha)
    · exact contains_intervalsFromRoot_of_mem ha12 (by omega) hb
  obtain ⟨m, hm⟩ := rootedMatch_isSome_of_all (p := ⟨"5", [0, 7], 20, false⟩) hall
  have hmem := mem_generateMatches_rooted ha (by decide) hm
  intro hnil
  rw [hnil] at hmem
  exact (List.not_mem_nil m) hmem

theorem gm_ne_nil_of_gap3 {u : List Nat} (hu : ∀ z ∈ u, z < 12) {a : Nat}
    (ha : a ∈ u) (hb : (a + 3) % 12 ∈ u) (h7 : (a + 7) % 12 ∉ u) :
    generateMatches u ≠ [] := by
  have ha12 := hu a ha
  have hall : (([0, 3, 7] : List Nat).filter (fun i => i != 7)).all
      (fun i => (intervalsFromRoot u a).contains i) = true := by
    simp only [show (([0, 3, 7] : List Nat).filter (fun i => i != 7)) = [0, 3] from rfl,
      List.all_cons, List.all_nil, Bool.and_eq_true, and_true]
    refine ⟨?_, ?_⟩
    · exact contains_intervalsFromRoot_of_mem ha12 (by omega) (by rw [show (a + 0) % 12 = a from by omega]; exact ha)
    · exact contains_intervalsFromRoot_of_mem ha12 (by omega) hb
  have hno7 := not_contains_intervalsFromRoot hu ha12 (by omega) h7
  obtain ⟨m, hm⟩ :=
    rootedMatch_isSome_omit5 (p := ⟨"madd#9", [0, 3, 7], 41, true⟩) rfl (by decide) hall hno7
  have hmem := mem_generateMatches_rooted ha (by decide) hm
  intro hnil
  rw [hnil] at hmem
  exact (List.not_mem_nil m) hmem

theorem gm_ne_nil_of_aug {u : List Nat} (hu : ∀ z ∈ u, z < 12) {a : Nat}
    (ha : a ∈ u) (hb : (a + 4) % 12 ∈ u) (hc : (a + 8) % 12 ∈ u) :
    generateMatches u ≠ [] := by
  have ha12 := hu a ha
  have hall : (([0, 4, 8] : List Nat).all (fun i => (intervalsFromRoot u a).contains i)) = true := by
    simp only [List.all_cons, List.all_nil, Bool.and_eq_true, and_true]
    refine ⟨?_, ?_, ?_⟩
    · exact contains_intervalsFromRoot_of_mem ha12 (by omega) (by rw [show (a + 0) % 12 = a from by omega]; exact ha)
    · exact contains_intervalsFromRoot_of_mem ha12 (by omega) hb
    · exact contains_intervalsFromRoot_of_mem ha12 (by omega) hc
  obtain ⟨m, hm⟩ := rootedMatch_isSome_of_all (p := ⟨"aug", [0, 4, 8], 35, false⟩) hall
  have hmem := mem_generateMatches_rooted ha (by decide) hm
  intro hnil
  rw [hnil] at hmem
  exact (List.not_mem_nil m) hmem

theorem gm_ne_nil_of_gap4 {u : List Nat} (hu : ∀ z ∈ u, z < 12) {a : Nat}
    (ha : a ∈ u) (hb : (a + 4) % 12 ∈ u) (h1 : (a + 1) % 12 ∉ u) (h8 : (a + 8) % 12 ∉ u) :
    generateMatches u ≠ [] := by
  have ha12 := hu a ha
  have ht12 : (a + 1) % 12 < 12 := Nat.mod_lt _ (by omega)
  have hall : ((([0, 3, 7, 11] : List Nat).filter (fun i => i != 0)).filter (fun i => i != 7)).all
      (fun i => (intervalsFromRoot u ((a + 1) % 12)).contains i) = true := by
    simp only [show ((([0, 3, 7, 11] : List Nat).filter (fun i => i != 0)).filter
        (fun i => i != 7)) = [3, 11] from rfl,
      List.all_cons, List.all_nil, Bool.and_eq_true, and_true]
    refine ⟨?_, ?_⟩
    · refine contains_intervalsFromRoot_of_mem ht12 (by omega) ?_
      have he : ((a + 1) % 12 + 3) % 12 = (a + 4) % 12 := by omega
      rw [he]
      exact hb
    · refine contains_intervalsFromRoot_of_mem ht12 (by omega) ?_
      have he : ((a + 1) % 12 + 11) % 12 = a := by omega
      rw [he]
      exact ha
  have hno7 : (intervalsFromRoot u ((a + 1) % 12)).contains 7 = false := by
    refine not_contains_intervalsFromRoot hu ht12 (by omega) ?_
    have he : ((a + 1) % 12 + 7) % 12 = (a + 8) % 12 := by omega
    rw [he]
    exact h8
  have hne := rootlessMatchesFor_ne_nil (u := u) (r := (a + 1) % 12)
    (p := ⟨"minMaj7", [0, 3, 7, 11], 45, true⟩) (by decide) (by decide) rfl hall hno7 (by decide)
  obtain ⟨m, hm⟩ := List.exists_mem_of_ne_nil _ hne
  have hmem := mem_generateMatches_rootless ht12 (contains_eq_false_of_not_mem h1) (by decide) hm
  intro hnil
  rw [hnil] at hmem
  exact (List.not_mem_nil m) hmem

theorem gm_ne_nil_of_gap6 {u : List Nat} (hu : ∀ z ∈ u, z < 12) {a : Nat}
    (ha : a ∈ u) (hb : (a + 6) % 12 ∈ u) (h8 : (a + 8) % 12 ∉ u) (h3 : (a + 3) % 12 ∉ u) :
    generateMatches u ≠ [] := by
  have ha12 := hu a ha
  have ht12 : (a + 8) % 12 < 12 := Nat.mod_lt _ (by omega)
  have hall : ((([0, 4, 7, 10] : List Nat).filter (fun i => i != 0)).filter (fun i => i != 7)).all
      (fun i => (intervalsFromRoot u ((a + 8) % 12)).contains i) = true := by
    simp only [show ((([0, 4, 7, 10] : List Nat).filter (fun i => i != 0)).filter
        (fun i => i != 7)) = [4, 10] from rfl,
      List.all_cons, List.all_nil, Bool.and_eq_true, and_true]
    refine ⟨?_, ?_⟩
    · refine contains_intervalsFromRoot_of_mem ht12 (by omega) ?_
      have he : ((a + 8) % 12 + 4) % 12 = a := by omega
      rw [he]
      exact ha
    · refine contains_intervalsFromRoot_of_mem ht12 (by omega) ?_
      have he : ((a + 8) % 12 + 10) % 12 = (a + 6) % 12 := by omega
      rw [he]
      exact hb
  have hno7 : (intervalsFromRoot u ((a + 8) % 12)).contains 7 = false := by
    refine not_contains_intervalsFromRoot hu ht12 (by omega) ?_
    have he : ((a + 8) % 12 + 7) % 12 = (a + 3) % 12 := by omega
    rw [he]
    exact h3
  have hne := rootlessMatchesFor_ne_nil (u := u) (r := (a + 8) % 12)
    (p := ⟨"7", [0, 4, 7, 10], 45, true⟩) (by decide) (by decide) rfl hall hno7 (by decide)
  obtain ⟨m, hm⟩ := List.exists_mem_of_ne_nil _ hne
  have hmem := mem_generateMatches_rootless ht12 (contains_eq_false_of_not_mem h8) (by decide) hm
  intro hnil
  rw [hnil] at hmem
  exact (List.not_mem_nil m) hmem

theorem gm_ne_nil_of_gap2 {u : List Nat} (hu : ∀ z ∈ u, z < 12) {a : Nat}
    (ha : a ∈ u) (hb : (a + 2) % 12 ∈ u) (h9 : (a + 9) % 12 ∉ u) (h4 : (a + 4) % 12 ∉ u) :
    generateMatches u ≠ [] := by
  have ha12 := hu a ha
  have ht12 : (a + 9) % 12 < 12 := Nat.mod_lt _ (by omega)
  have hall : ((([0, 3, 5, 7] : List Nat).filter (fun i => i != 0)).filter (fun i => i != 7)).all
      (fun i => (intervalsFromRoot u ((a + 9) % 12)).contains i) = true := by
    simp only [show ((([0, 3, 5, 7] : List Nat).filter (fun i => i != 0)).filter
        (fun i => i != 7)) = [3, 5] from rfl,
      List.all_cons, List.all_nil, Bool.and_eq_true, and_true]
    refine ⟨?_, ?_⟩
    · refine contains_intervalsFromRoot_of_mem ht12 (by omega) ?_
      have he : ((a + 9) % 12 + 3) % 12 = a := by omega
      rw [he]
      exact ha
    · refine contains_intervalsFromRoot_of_mem ht12 (by omega) ?_
      have he : ((a + 9) % 12 + 5) % 12 = (a + 2) % 12 := by omega
      rw [he]
      exact hb
  have hno7 : (intervalsFromRoot u ((a + 9) % 12)).contains 7 = false := by
    refine not_contains_intervalsFromRoot hu ht12 (by omega) ?_
    have he : ((a + 9) % 12 + 7) % 12 = (a + 4) % 12 := by omega
    rw [he]
    exact h4
  have hne := rootlessMatchesFor_ne_nil (u := u) (r := (a + 9) % 12)
    (p := ⟨"madd11", [0, 3, 5, 7], 40, true⟩) (by decide) (by decide) rfl hall hno7 (by decide)
  obtain ⟨m, hm⟩ := List.exists_mem_of_ne_nil _ hne
  have hmem := mem_generateMatches_rootless ht12 (contains_eq_false_of_not_mem h9) (by decide) hm
  intro hnil
  rw [hnil] at hmem
  exact (List.not_mem_nil m) hmem

theorem gm_ne_nil_of_gap1 {u : List Nat} (hu : ∀ z ∈ u, z < 12) {a : Nat}
    (ha : a ∈ u) (hb : (a + 1) % 12 ∈ u) (h10 : (a + 10) % 12 ∉ u) (h5 : (a + 5) % 12 ∉ u) :
    generateMatches u ≠ [] := by
  have ha12 := hu a ha
  have ht12 : (a + 10) % 12 < 12 := Nat.mod_lt _ (by omega)
  have hall : ((([0, 2, 3, 7] : List Nat).filter (fun i => i != 0)).filter (fun i => i != 7)).all
      (fun i => (intervalsFromRoot u ((a + 10) % 12)).contains i) = true := by
    simp only [show ((([0, 2, 3, 7] : List Nat).filter (fun i => i != 0)).filter
        (fun i => i != 7)) = [2, 3] from rfl,
      List.all_cons, List.all_nil, Bool.and_eq_true, and_true]
    refine ⟨?_, ?_⟩
    · refine contains_intervalsFromRoot_of_mem ht12 (by omega) ?_
      have he : ((a + 10) % 12 + 2) % 12 = a := by omega
      rw [he]
      exact ha
    · refine contains_intervalsFromRoot_of_mem ht12 (by omega) ?_
      have he : ((a + 10) % 12 + 3) % 12 = (a + 1) % 12 := by omega
      rw [he]
      exact hb
  have hno7 : (intervalsFromRoot u ((a + 10) % 12)).contains 7 = false := by
    refine not_contains_intervalsFromRoot hu ht12 (by omega) ?_
    have he : ((a + 10) % 12 + 7) % 12 = (a + 5) % 12 := by omega
    rw [he]
    exact h5
  have hne := rootlessMatchesFor_ne_nil (u := u) (r := (a + 10) % 12)
    (p := ⟨"madd9", [0, 2, 3, 7], 40, true⟩) (by decide) (by decide) rfl hall hno7 (by decide)
  obtain ⟨m, hm⟩ := List.exists_mem_of_ne_nil _ hne
  have hmem := mem_generateMatches_rootless ht12 (contains_eq_false_of_not_mem h10) (by decide) hm
  intro hnil
  rw [hnil] at hmem
  exact (List.not_mem_nil m) hmem

/-- If the matcher generates no matches at all, the played pitch-class set
is a singleton: any two of its members are equal.  (Hence the fallback
path of `analyzeChord` is reachable only for single-pitch-class inputs.) -/
theorem eq_of_generateMatches_eq_nil {u : List Nat} (hu : ∀ z ∈ u, z < 12)
    (hgm : generateMatches u = []) : ∀ x ∈ u, ∀ y ∈ u, x = y := by
  have E7 : ∀ a ∈ u, (a + 7) % 12 ∉ u := fun a haa hb => gm_ne_nil_of_gap7 hu haa hb hgm
  have E3 : ∀ a ∈ u, (a + 3) % 12 ∉ u := fun a haa hb =>
    gm_ne_nil_of_gap3 hu haa hb (E7 a haa) hgm
  have E5 : ∀ a ∈ u, (a + 5) % 12 ∉ u := by
    intro a haa hb
    have ha12 := hu a haa
    refine E7 _ hb ?_
    have he : ((a + 5) % 12 + 7) % 12 = a := by omega
    rw [he]
    exact haa
  have Eaug : ∀ a ∈ u, ¬((a + 4) % 12 ∈ u ∧ (a + 8) % 12 ∈ u) := fun a haa h =>
    gm_ne_nil_of_aug hu haa h.1 h.2 hgm
  have E4 : ∀ a ∈ u, (a + 4) % 12 ∉ u := by
    intro a haa hb
    have ha12 := hu a haa
    have h1 : (a + 1) % 12 ∉ u := by
      intro h1m
      refine E3 _ h1m ?_
      have he : ((a + 1) % 12 + 3) % 12 = (a + 4) % 12 := by omega
      rw [he]
      exact hb
    have h8 : (a + 8) % 12 ∉ u := fun h8m => Eaug a haa ⟨hb, h8m⟩
    exact gm_ne_nil_of_gap4 hu haa hb h1 h8 hgm
  have E6 : ∀ a ∈ u, (a + 6) % 12 ∉ u := by
    intro a haa hb
    have ha12 := hu a haa
    have h8 : (a + 8) % 12 ∉ u := by
      intro h8m
      refine E4 _ h8m ?_
      have he : ((a + 8) % 12 + 4) % 12 = a := by omega
      rw [he]
      exact haa
    exact gm_ne_nil_of_gap6 hu haa hb h8 (E3 a haa) hgm
  have E2 : ∀ a ∈ u, (a + 2) % 12 ∉ u := by
    intro a haa hb
    have ha12 := hu a haa
    have h9 : (a + 9) % 12 ∉ u := by
      intro h9m
      refine E3 _ h9m ?_
      have he : ((a + 9) % 12 + 3) % 12 = a := by omega
      rw [he]
      exact haa
    exact gm_ne_nil_of_gap2 hu haa hb h9 (E4 a haa) hgm
  have E1 : ∀ a ∈ u, (a + 1) % 12 ∉ u := by
    intro a haa hb
    have ha12 := hu a haa
    have h10 : (a + 10) % 12 ∉ u := by
      intro h10m
      refine E2 _ h10m ?_
      have he : ((a + 10) % 12 + 2) % 12 = a := by omega
      rw [he]
      exact haa
    exact gm_ne_nil_of_gap1 hu haa hb h10 (E5 a haa) hgm
  intro x hx y hy
  by_contra hxy
  have hx12 := hu x hx
  have hy12 := hu y hy
  have hg : (y + 12 - x) % 12 = 1 ∨ (y + 12 - x) % 12 = 2 ∨ (y + 12 - x) % 12 = 3 ∨
      (y + 12 - x) % 12 = 4 ∨ (y + 12 - x) % 12 = 5 ∨ (y + 12 - x) % 12 = 6 ∨
      (y + 12 - x) % 12 = 7 ∨ (y + 12 - x) % 12 = 8 ∨ (y + 12 - x) % 12 = 9 ∨
      (y + 12 - x) % 12 = 10 ∨ (y + 12 - x) % 12 = 11 := by omega
  rcases hg with h | h | h | h | h | h | h | h | h | h | h
  · exact E1 x hx (by rw [show (x + 1) % 12 = y from by omega]; exact hy)
  · exact E2 x hx (by rw [show (x + 2) % 12 = y from by omega]; exact hy)
  · exact E3 x hx (by rw [show (x + 3) % 12 = y from by omega]; exact hy)
  · exact E4 x hx (by rw [show (x + 4) % 12 = y from by omega]; exact hy)
  · exact E5 x hx (by rw [show (x + 5) % 12 = y from by omega]; exact hy)
  · exact E6 x hx (by rw [show (x + 6) % 12 = y from by omega]; exact hy)
  · exact E7 x hx (by rw [show (x + 7) % 12 = y from by omega]; exact hy)
  · exact E4 y hy (by rw [show (y + 4) % 12 = x from by omega]; exact hx)
  · exact E3 y hy (by rw [show (y + 3) % 12 = x from by omega]; exact hx)
  · exact E2 y hy (by rw [show (y + 2) % 12 = x from by omega]; exact hx)
  · exact E1 y hy (by rw [show (y + 1) % 12 = x from by omega]; exact hx)

theorem uniquePitchClasses_lt_twelve {l : List Nat} : ∀ z ∈ uniquePitchClasses l, z < 12 := by
  intro z hz
  rw [mem_uniquePitchClasses] at hz
  obtain ⟨n, -, hn⟩ := List.mem_map.mp hz
  omega

theorem bassPC_mem_uniquePitchClasses {notes : List Nat} (h : notes ≠ []) :
    ((List.insertionSort (· ≤ ·) notes).headD 0) % 12 ∈
      uniquePitchClasses (List.insertionSort (· ≤ ·) notes) := by
  rw [mem_uniquePitchClasses]
  rcases hc : List.insertionSort (· ≤ ·) notes with _ | ⟨x, xs⟩
  · exact absurd hc (insertionSort_ne_nil h)
  · exact List.mem_map_of_mem _ (List.mem_cons_self x xs)

/-- C1 counterexample: `[60,64,67,70,75]` and `[60,63,64,67,70]` have the
same multiset of pitch classes (equal sorted pitch-class lists) but
`analyzeChord` returns different qualities for them (`"7#9"` vs
`"7(add b3)"`). -/
theorem c1_counterexample :
    List.insertionSort (· ≤ ·) ([60, 64, 67, 70, 75].map (fun n => n % 12)) =
      List.insertionSort (· ≤ ·) ([60, 63, 64, 67, 70].map (fun n => n % 12)) ∧
    (analyzeChord [60, 64, 67, 70, 75]).map (fun a => a.quality) ≠
      (analyzeChord [60, 63, 64, 67, 70]).map (fun a => a.quality) := by
  constructor
  · decide
  · decide

/-- C1 (amended): for every pair of non-empty inputs that are identical as
multisets of pitch classes, the returned root at pitch-class level
(`detectedRootPitchClass`) is identical — including on the no-match
fallback, which is reachable only for single-pitch-class inputs; the
quality string is voicing-dependent and need not be identical. -/
theorem c1_amended_root_invariant (n₁ n₂ : List Nat) (h₁ : n₁ ≠ []) (h₂ : n₂ ≠ [])
    (hperm : List.insertionSort (· ≤ ·) (n₁.map (fun n => n % 12)) =
             List.insertionSort (· ≤ ·) (n₂.map (fun n => n % 12))) :
    (analyzeChord n₁).map (fun a => a.detectedRootPitchClass) =
    (analyzeChord n₂).map (fun a => a.detectedRootPitchClass) := by
  have hperm' : (n₁.map (fun n => n % 12)).Perm (n₂.map (fun n => n % 12)) := by
    have p1 := List.perm_insertionSort (· ≤ ·) (n₁.map (fun n => n % 12))
    have p2 := List.perm_insertionSort (· ≤ ·) (n₂.map (fun n => n % 12))
    exact p1.symm.trans (hperm ▸ p2)
  have hup : uniquePitchClasses (List.insertionSort (· ≤ ·) n₁) =
      uniquePitchClasses (List.insertionSort (· ≤ ·) n₂) := by
    apply uniquePitchClasses_eq_of_perm
    have q1 : ((List.insertionSort (· ≤ ·) n₁).map (fun n => n % 12)).Perm
        (n₁.map (fun n => n % 12)) := (List.perm_insertionSort _ _).map _
    have q2 : ((List.insertionSort (· ≤ ·) n₂).map (fun n => n % 12)).Perm
        (n₂.map (fun n => n % 12)) := (List.perm_insertionSort _ _).map _
    exact q1.trans (hperm'.trans q2.symm)
  rcases hS : sortMatches (generateMatches (uniquePitchClasses (List.insertionSort (· ≤ ·) n₁)))
    with _ | ⟨b, rest⟩
  · -- no match at all: the pitch-class set is a singleton, so the two
    -- bass pitch classes (both members of it) coincide
    have hgm : generateMatches (uniquePitchClasses (List.insertionSort (· ≤ ·) n₁)) = [] :=
      sortMatches_eq_nil_iff.mp hS
    have hS₂ : sortMatches (generateMatches (uniquePitchClasses (List.insertionSort (· ≤ ·) n₂))) =
        [] := by rw [← hup]; exact hS
    rw [analyzeChord_eq_some h₁, analyzeChord_eq_some h₂,
      analyzeNonempty_eq_fallback hS, analyzeNonempty_eq_fallback hS₂]
    simp only [Option.map_some']
    show some (((List.insertionSort (· ≤ ·) n₁).headD 0) % 12) =
      some (((List.insertionSort (· ≤ ·) n₂).headD 0) % 12)
    have hb1 := bassPC_mem_uniquePitchClasses h₁
    have hb2 : ((List.insertionSort (· ≤ ·) n₂).headD 0) % 12 ∈
        uniquePitchClasses (List.insertionSort (· ≤ ·) n₁) := by
      rw [hup]
      exact bassPC_mem_uniquePitchClasses h₂
    exact congrArg some
      (eq_of_generateMatches_eq_nil uniquePitchClasses_lt_twelve hgm _ hb1 _ hb2)
  · have hS₂ : sortMatches (generateMatches (uniquePitchClasses (List.insertionSort (· ≤ ·) n₂))) =
        b :: rest := by rw [← hup]; exact hS
    rw [analyzeChord_eq_some h₁, analyzeChord_eq_some h₂,
      analyzeNonempty_eq_finish hS, analyzeNonempty_eq_finish hS₂]
    simp only [Option.map_some', finishAnalysis_detectedRoot, finishBest_root]

/-- Witness for C1 (amended): a C major triad at octaves 2 and 4. -/
theorem c1_amended_root_invariant_witness :
    (([36, 40, 43] : List Nat) ≠ []) ∧ (([60, 64, 67] : List Nat) ≠ []) ∧
    (List.insertionSort (· ≤ ·) ([36, 40, 43].map (fun n => n % 12)) =
      List.insertionSort (· ≤ ·) ([60, 64, 67].map (fun n => n % 12))) ∧
    ((analyzeChord [36, 40, 43]).map (fun a => a.detectedRootPitchClass) =
      (analyzeChord [60, 64, 67]).map (fun a => a.detectedRootPitchClass)) :=
  ⟨by simp, by simp, by decide,
    c1_amended_root_invariant [36, 40, 43] [60, 64, 67] (by simp) (by simp) (by decide)⟩

/-- C2 counterexample: for the input `[60,67]` (a played power chord) the
exact `5` match (score 20·100+1000 = 3000) is outscored by the non-exact
rootless Maj7 match with omitted 5th (score 45·70−80 = 3070), and the
selected best match is that rootless match, not the exact one. -/
theorem c2_counterexample :
    (∃ e ∈ generateMatches (uniquePitchClasses [60, 67]), e.isExact = true) ∧
    (∃ m ∈ generateMatches (uniquePitchClasses [60, 67]),
      ∃ e ∈ generateMatches (uniquePitchClasses [60, 67]),
        m.isExact = false ∧ e.isExact = true ∧ e.score < m.score) ∧
    ((analyzeChord [60, 67]).map (fun a => (a.quality, a.isRootless)) = some ("Maj7", true)) := by
  refine ⟨?_, ?_, ?_⟩
  · decide
  · decide
  · decide

/-- C2 (amended): an exact match scores exactly `priority·100 + 1000` and
every non-exact match scores at most `priority·100`, so an exact match
strictly outranks every non-exact match generated for the same input whose
pattern priority is at most 9 above the exact pattern's priority (in
particular, every one of equal or lower priority).  Non-exact matches of
sufficiently higher-priority patterns can overcome the 1000 bonus, so the
selected best match need not be exact (see the counterexample). -/
theorem c2_amended_exact_outranks (upcs : List Nat) (e m : Match)
    (he : e ∈ generateMatches upcs) (hm : m ∈ generateMatches upcs)
    (hex : e.isExact = true) (hnex : m.isExact = false)
    (hprio : m.pattern.priority ≤ e.pattern.priority + 9) :
    m.score < e.score := by
  obtain ⟨he1, -, -⟩ := mem_generateMatches_inv he
  obtain ⟨-, hm2, -⟩ := mem_generateMatches_inv hm
  have h1 := he1 hex
  have h2 := hm2 hnex
  have h3 : (m.pattern.priority : Int) ≤ (e.pattern.priority : Int) + 9 := by exact_mod_cast hprio
  rw [h1]
  omega

/-- Witness for C2 (amended): in the matches for the pitch-class set
`[0,4,7]`, the exact major-triad match outranks the non-exact `5`
superset match. -/
theorem c2_amended_exact_outranks_witness :
    ((⟨⟨"", [0, 4, 7], 35, false⟩, 0, 4500, false, true⟩ : Match) ∈ generateMatches [0, 4, 7]) ∧
    ((⟨⟨"5", [0, 7], 20, false⟩, 0, 1982, false, false⟩ : Match) ∈ generateMatches [0, 4, 7]) ∧
    ((⟨⟨"5", [0, 7], 20, false⟩, 0, 1982, false, false⟩ : Match).score <
      (⟨⟨"", [0, 4, 7], 35, false⟩, 0, 4500, false, true⟩ : Match).score) :=
  ⟨by decide, by decide,
    c2_amended_exact_outranks [0, 4, 7] _ _ (by decide) (by decide) rfl rfl (by decide)⟩

/-- C7: post-match disambiguation never changes anything but the selected
pattern's name.  (a) The disambiguation pipeline always returns a match
that agrees with some member of the match list in every field except the
pattern name (switches select existing matches; renames only touch the
name).  (b) Consequently, on the non-fallback path, the returned
`ChordAnalysis` carries the intervals, root and rootless flag of a match
that was actually generated. -/
theorem c7_frame :
    (∀ (ms : List Match) (b : Match) (h3 hm3 h7 hT h5 h8 t3 t6 : Bool), b ∈ ms →
      ∃ m ∈ ms, MatchAgrees m (disambPipeline ms b h3 hm3 h7 hT h5 h8 t3 t6)) ∧
    (∀ (notes : List Nat) (a : ChordAnalysis), analyzeChord notes = some a →
      generateMatches (uniquePitchClasses (List.insertionSort (· ≤ ·) notes)) ≠ [] →
      ∃ m ∈ generateMatches (uniquePitchClasses (List.insertionSort (· ≤ ·) notes)),
        a.intervals = m.pattern.intervals ∧ a.detectedRootPitchClass = m.root ∧
        a.isRootless = m.isRootless) := by
  constructor
  · intro ms b h3 hm3 h7 hT h5 h8 t3 t6 hb
    exact disambPipeline_agrees ms b h3 hm3 h7 hT h5 h8 t3 t6 (exists_agrees_of_mem hb)
  · intro notes a ha hm
    have hne : notes ≠ [] := by
      intro hc
      subst hc
      simp [analyzeChord] at ha
    have ha' : a = analyzeNonempty notes := by
      rw [analyzeChord_eq_some hne] at ha
      exact (Option.some.inj ha).symm
    rcases hS : sortMatches (generateMatches (uniquePitchClasses (List.insertionSort (· ≤ ·) notes)))
      with _ | ⟨b, rest⟩
    · exact absurd (sortMatches_eq_nil_iff.mp hS) hm
    · have hA : a = finishAnalysis (List.insertionSort (· ≤ ·) notes)
          (((List.insertionSort (· ≤ ·) notes).headD 0) % 12)
          (uniquePitchClasses (List.insertionSort (· ≤ ·) notes)) (b :: rest) b := by
        rw [ha', analyzeNonempty_eq_finish hS]
      obtain ⟨m, hmem, hag⟩ := finishBest_agrees (List.insertionSort (· ≤ ·) notes)
        (uniquePitchClasses (List.insertionSort (· ≤ ·) notes)) (b :: rest) b
        (exists_agrees_of_mem (List.mem_cons_self b rest))
      refine ⟨m, ?_, ?_, ?_, ?_⟩
      · apply mem_of_mem_sortMatches
        rw [hS]
        exact hmem
      · rw [hA, finishAnalysis_intervals]
        exact hag.2.2.2.2.1
      · rw [hA, finishAnalysis_detectedRoot]
        exact hag.1
      · rw [hA, finishAnalysis_isRootless]
        exact hag.2.2.1

/-- Witness for C7 at concrete inputs: a singleton match list for part (a)
and the concrete C major triad input for part (b). -/
theorem c7_frame_witness :
    ((⟨⟨"m", [0, 3, 7], 35, false⟩, 0, 4500, false, true⟩ : Match) ∈
      ([⟨⟨"m", [0, 3, 7], 35, false⟩, 0, 4500, false, true⟩] : List Match)) ∧
    (∃ m ∈ ([⟨⟨"m", [0, 3, 7], 35, false⟩, 0, 4500, false, true⟩] : List Match),
      MatchAgrees m (disambPipeline [⟨⟨"m", [0, 3, 7], 35, false⟩, 0, 4500, false, true⟩]
        ⟨⟨"m", [0, 3, 7], 35, false⟩, 0, 4500, false, true⟩
        false false false false false false false false)) ∧
    (analyzeChord [60, 64, 67] = some ⟨"C", "", "C", "C", [0, 4, 7], 0, false, [0, 4, 7]⟩) ∧
    (generateMatches (uniquePitchClasses (List.insertionSort (· ≤ ·) [60, 64, 67])) ≠ []) ∧
    (∃ m ∈ generateMatches (uniquePitchClasses (List.insertionSort (· ≤ ·) [60, 64, 67])),
      (⟨"C", "", "C", "C", [0, 4, 7], 0, false, [0, 4, 7]⟩ : ChordAnalysis).intervals =
          m.pattern.intervals ∧
        (⟨"C", "", "C", "C", [0, 4, 7], 0, false, [0, 4, 7]⟩ : ChordAnalysis).detectedRootPitchClass =
          m.root ∧
        (⟨"C", "", "C", "C", [0, 4, 7], 0, false, [0, 4, 7]⟩ : ChordAnalysis).isRootless =
          m.isRootless) :=
  ⟨by decide,
    c7_frame.1 _ _ false false false false false false false false (by decide),
    by decide, by decide,
    c7_frame.2 [60, 64, 67] _ (by decide) (by decide)⟩

/-- C9: whenever `analyzeChord` returns an analysis whose detected root
pitch class is 3 and which is not rootless (so pitch class 3 is actually
sounded, including on the no-match fallback), the spelled root is `"Eb"`
and never `"D#"`: the spelling context is the chord's own pitch-class set,
which then contains the flat indicator 3. -/
theorem c9_root_three_spelled_flat (notes : List Nat) (a : ChordAnalysis)
    (ha : analyzeChord notes = some a) (h3 : a.detectedRootPitchClass = 3)
    (hrl : a.isRootless = false) : a.root = "Eb" := by
  have hne : notes ≠ [] := by
    intro hc
    subst hc
    simp [analyzeChord] at ha
  have ha' : a = analyzeNonempty notes := by
    rw [analyzeChord_eq_some hne] at ha
    exact (Option.some.inj ha).symm
  have hsne : List.insertionSort (· ≤ ·) notes ≠ [] := insertionSort_ne_nil hne
  rcases hS : sortMatches (generateMatches (uniquePitchClasses (List.insertionSort (· ≤ ·) notes)))
    with _ | ⟨b, rest⟩
  · -- fallback path: the detected root is the bass pitch class, which is played
    have hA : a = fallbackAnalysis (List.insertionSort (· ≤ ·) notes)
        (((List.insertionSort (· ≤ ·) notes).headD 0) % 12)
        (uniquePitchClasses (List.insertionSort (· ≤ ·) notes)) := by
      rw [ha', analyzeNonempty_eq_fallback hS]
    have hbp : (((List.insertionSort (· ≤ ·) notes).headD 0) % 12) = 3 := by
      rw [hA] at h3
      exact h3
    have hmem : (3 : Nat) ∈ uniquePitchClasses (List.insertionSort (· ≤ ·) notes) := by
      rw [mem_uniquePitchClasses]
      rcases hcase : List.insertionSort (· ≤ ·) notes with _ | ⟨x, xs⟩
      · exact absurd hcase hsne
      · rw [← hbp, hcase]
        exact List.mem_map_of_mem _ (List.mem_cons_self x xs)
    have hcont : (uniquePitchClasses (List.insertionSort (· ≤ ·) notes)).contains 3 = true := by
      simpa using hmem
    have hroot : a.root = getRootSpelling
        (((List.insertionSort (· ≤ ·) notes).headD 0) % 12)
        (some (uniquePitchClasses (List.insertionSort (· ≤ ·) notes))) := by
      rw [hA]
      rfl
    rw [hroot, hbp]
    exact getRootSpelling_three_of_mem hcont
  · -- matched path: the final best match keeps the root of a generated
    -- non-rootless match, whose root is a played pitch class
    have hA : a = finishAnalysis (List.insertionSort (· ≤ ·) notes)
        (((List.insertionSort (· ≤ ·) notes).headD 0) % 12)
        (uniquePitchClasses (List.insertionSort (· ≤ ·) notes)) (b :: rest) b := by
      rw [ha', analyzeNonempty_eq_finish hS]
    obtain ⟨m, hmem, hag⟩ := finishBest_agrees (List.insertionSort (· ≤ ·) notes)
      (uniquePitchClasses (List.insertionSort (· ≤ ·) notes)) (b :: rest) b
      (exists_agrees_of_mem (List.mem_cons_self b rest))
    have hmg : m ∈ generateMatches (uniquePitchClasses (List.insertionSort (· ≤ ·) notes)) := by
      apply mem_of_mem_sortMatches
      rw [hS]
      exact hmem
    have hbroot : (finishBest (List.insertionSort (· ≤ ·) notes)
        (uniquePitchClasses (List.insertionSort (· ≤ ·) notes)) (b :: rest) b).root = 3 := by
      rw [hA, finishAnalysis_detectedRoot] at h3
      exact h3
    have hbrl : (finishBest (List.insertionSort (· ≤ ·) notes)
        (uniquePitchClasses (List.insertionSort (· ≤ ·) notes)) (b :: rest) b).isRootless = false := by
      rw [hA, finishAnalysis_isRootless] at hrl
      exact hrl
    have hmrl : m.isRootless = false := by
      rw [← hag.2.2.1]
      exact hbrl
    have hmroot : m.root = 3 := by
      rw [← hag.1]
      exact hbroot
    have hmem3 : (3 : Nat) ∈ uniquePitchClasses (List.insertionSort (· ≤ ·) notes) := by
      rw [← hmroot]
      exact (mem_generateMatches_inv hmg).2.2 hmrl
    have hcont : (uniquePitchClasses (List.insertionSort (· ≤ ·) notes)).contains 3 = true := by
      simpa using hmem3
    have hroot : a.root = getRootSpelling
        (finishBest (List.insertionSort (· ≤ ·) notes)
          (uniquePitchClasses (List.insertionSort (· ≤ ·) notes)) (b :: rest) b).root
        (some (uniquePitchClasses (List.insertionSort (· ≤ ·) notes))) := by
      rw [hA, finishAnalysis_root]
    rw [hroot, hbroot]
    exact getRootSpelling_three_of_mem hcont

/-- Witness for C9: the Eb major triad `[63,67,70]`. -/
theorem c9_root_three_spelled_flat_witness :
    (analyzeChord [63, 67, 70] =
      some ⟨"Eb", "", "Eb", "Eb", [0, 4, 7], 3, false, [0, 4, 7]⟩) ∧
    ((⟨"Eb", "", "Eb", "Eb", [0, 4, 7], 3, false, [0, 4, 7]⟩ : ChordAnalysis).root = "Eb") :=
  ⟨by decide,
    c9_root_three_spelled_flat [63, 67, 70] _ (by decide) rfl rfl⟩
